import Mathlib

/-!
Verification development for the Telangana pharmacy-council data pipeline.

The Python source is shallowly embedded: pure functions of the source become
Lean functions; file-system effects become explicit values threaded through the
model (the dataset file is a `List` of records, an absent file is `none`);
Python exceptions become `Except`/`Option` results; Python floats are modelled
as rationals.  Strings are handled over ASCII, matching every input the
properties mention.
-/

namespace TGPC

/-! ## Python string primitives -/

/-- ASCII lower-casing of one character, as Python `str.lower` acts on ASCII. -/
def asciiLowerChar (c : Char) : Char :=
  if 'A' ≤ c ∧ c ≤ 'Z' then Char.ofNat (c.toNat + 32) else c

/-- ASCII upper-casing of one character, as Python `str.upper` acts on ASCII. -/
def asciiUpperChar (c : Char) : Char :=
  if 'a' ≤ c ∧ c ≤ 'z' then Char.ofNat (c.toNat - 32) else c

/-- ASCII lower-casing of a string. -/
def asciiLower (s : String) : String := String.mk (s.data.map asciiLowerChar)

/-- ASCII upper-casing of a string. -/
def asciiUpper (s : String) : String := String.mk (s.data.map asciiUpperChar)

/-- Decimal-digit test for one character (Python `str.isdigit` on ASCII). -/
def isDigitChar (c : Char) : Bool := '0' ≤ c && c ≤ '9'

/-- Python `str.isdigit`: non-empty and every character a digit. -/
def pyIsDigit (s : String) : Bool := !s.data.isEmpty && s.data.all isDigitChar

/-- Python `str.strip()`: drop whitespace from both ends. -/
def pyStrip (s : String) : String :=
  String.mk (((s.data.dropWhile Char.isWhitespace).reverse.dropWhile
    Char.isWhitespace).reverse)

/-- Prefix test on character lists: does `l` begin with `p`? -/
def seqAt : List Char → List Char → Bool
  | [], _ => true
  | _ :: _, [] => false
  | a :: as, b :: bs => a == b && seqAt as bs

/-- Substring occurrence on character lists: does `sub` occur inside `l`? -/
def containsSeq (sub : List Char) : List Char → Bool
  | [] => seqAt sub []
  | l@(_ :: t) => seqAt sub l || containsSeq sub t

/-- Python `sub in s` (substring containment, case-sensitive). -/
def hasSub (s sub : String) : Bool := containsSeq sub.data s.data

/-- Case-insensitive (ASCII-folded) substring containment. -/
def hasSubCI (s sub : String) : Bool := hasSub (asciiLower s) (asciiLower sub)

instance {ε α : Type} [DecidableEq ε] [DecidableEq α] : DecidableEq (Except ε α) :=
  fun x y =>
    match x, y with
    | .ok a, .ok b =>
        if h : a = b then isTrue (by rw [h])
        else isFalse (by intro hc; cases hc; exact h rfl)
    | .error a, .error b =>
        if h : a = b then isTrue (by rw [h])
        else isFalse (by intro hc; cases hc; exact h rfl)
    | .ok _, .error _ => isFalse (by intro hc; cases hc)
    | .error _, .ok _ => isFalse (by intro hc; cases hc)

/-- Digits of a character list read as a natural number. -/
def digitsToNat (l : List Char) : Nat :=
  l.foldl (fun acc c => 10 * acc + (c.toNat - '0'.toNat)) 0

/-- Python `int(s)` on an optionally signed decimal string: strips surrounding
whitespace, accepts one leading `+` or `-`, then one or more digits. -/
def pythonInt (s : String) : Option Int :=
  let t := (pyStrip s).data
  match t with
  | '+' :: rest =>
      if !rest.isEmpty && rest.all isDigitChar then some (digitsToNat rest) else none
  | '-' :: rest =>
      if !rest.isEmpty && rest.all isDigitChar then some (-(digitsToNat rest : Int)) else none
  | rest =>
      if !rest.isEmpty && rest.all isDigitChar then some (digitsToNat rest) else none

/-- Python `str.zfill(w)` on an unsigned digit string: left-pad with zeros. -/
def zfill (w : Nat) (s : String) : String :=
  if s.length ≥ w then s
  else String.mk (List.replicate (w - s.length) '0' ++ s.data)

/-- Python `reSub` of runs of whitespace to a single space (used after strip),
modelling `re.sub(r"\s+", " ", name.strip())`. -/
def collapseWhitespace : Bool → List Char → List Char
  | _, [] => []
  | prevWs, c :: t =>
      if c.isWhitespace then
        if prevWs then collapseWhitespace true t
        else ' ' :: collapseWhitespace true t
      else c :: collapseWhitespace false t

/-- Python `str.title()` on ASCII: a letter following a non-letter is
upper-cased, a letter following a letter is lower-cased. -/
def pyTitleAux : Bool → List Char → List Char
  | _, [] => []
  | prevAlpha, c :: t =>
      if c.isAlpha then
        (if prevAlpha then asciiLowerChar c else asciiUpperChar c) :: pyTitleAux true t
      else c :: pyTitleAux false t

/-- Python `str.title()` over a whole string. -/
def pyTitle (s : String) : String := String.mk (pyTitleAux false s.data)

/-! ## Data model (`tgpc/models/pharmacist.py`)

The normalizing record type.  Only the fields the verified properties read are
carried; the static cleaning helpers are embedded verbatim. -/

/-- The five basic fields of a pharmacist record. -/
structure PharmacistRecord where
  registration_number : String
  name : String
  father_name : String
  category : String
  serial_number : Option Int := none
deriving DecidableEq

/-- Tail of the registration-number pattern after the `TS`/`TG` prefix:
`[A-Z]*\d+$` on an upper-cased character list. -/
def regNoTail (rest : List Char) : Bool :=
  let d := rest.dropWhile (fun c => 'A' ≤ c && c ≤ 'Z')
  !d.isEmpty && d.all isDigitChar

/-- `re.match(r"^(TS|TG)[A-Z]*\d+$", s, re.IGNORECASE)` as a Boolean test. -/
def matchesRegNoPattern (s : String) : Bool :=
  match s.data.map asciiUpperChar with
  | 'T' :: 'S' :: rest => regNoTail rest
  | 'T' :: 'G' :: rest => regNoTail rest
  | _ => false

/-- Python `s.startswith(("TS", "TG"))` (case-sensitive). -/
def startsWithTSorTG (s : String) : Bool :=
  seqAt ['T', 'S'] s.data || seqAt ['T', 'G'] s.data

/-- `PharmacistRecord._clean_registration_number`: raising paths become
`Except.error`. -/
def clean_registration_number (reg : String) : Except String String :=
  if reg = "" then .error "Registration number is required"
  else
    let r := pyStrip reg
    if matchesRegNoPattern r then .ok (asciiUpper r)
    else if pyIsDigit r then .ok (asciiUpper ("TS" ++ zfill 6 r))
    else if !(startsWithTSorTG r) then
      .error ("Invalid registration number format: " ++ r)
    else .ok (asciiUpper r)

/-- `PharmacistRecord._clean_name`. -/
def clean_name (name : String) : String :=
  if name = "" then ""
  else pyTitle (String.mk (collapseWhitespace false (pyStrip name).data))

/-- The category synonym dictionary of `PharmacistRecord._clean_category`. -/
def categoryMapping : List (String × String) :=
  [("BPHARM", "BPharm"), ("B.PHARM", "BPharm"), ("B PHARM", "BPharm"),
   ("DPHARM", "DPharm"), ("D.PHARM", "DPharm"), ("D PHARM", "DPharm"),
   ("PHARMD", "PharmD"), ("PHARM.D", "PharmD"), ("PHARM D", "PharmD"),
   ("MPHARM", "MPharm"), ("M.PHARM", "MPharm"), ("M PHARM", "MPharm"),
   ("QP", "QP"), ("QC", "QC")]

/-- `PharmacistRecord._clean_category`: empty passes through, otherwise strip,
upper-case, and apply the synonym dictionary (missing keys fall through). -/
def clean_category (category : String) : String :=
  if category = "" then ""
  else
    let c := asciiUpper (pyStrip category)
    match categoryMapping.lookup c with
    | some v => v
    | none => c

/-- The fixed category vocabulary used by `PharmacistRecord.validate`. -/
def validCategories : List String :=
  ["BPharm", "DPharm", "PharmD", "MPharm", "QP", "QC"]

/-- `PharmacistRecord.validate`: the list of validation problems, in the order
the source appends them. -/
def validate (r : PharmacistRecord) : List String :=
  (if pyStrip r.registration_number = "" then ["Registration number is required"] else []) ++
  (if pyStrip r.name = "" then ["Name is required"] else []) ++
  (if pyStrip r.category = "" then ["Category is required"] else []) ++
  (if r.registration_number ≠ "" then
    match clean_registration_number r.registration_number with
    | .error e => [e]
    | .ok _ => []
   else []) ++
  (if r.category ≠ "" && !(validCategories.contains r.category) then
    ["Invalid category: " ++ r.category] else [])

/-- Specification-side reformulation of the validator's duplicate handling
(first occurrence of each registration number wins, given a seen-set); used
to reason about `validate_records` on all-valid inputs. -/
def dedupFirstAux (seen : List String) : List PharmacistRecord → List PharmacistRecord
  | [] => []
  | r :: rs =>
      if seen.contains r.registration_number then dedupFirstAux seen rs
      else r :: dedupFirstAux (r.registration_number :: seen) rs

/-! ## Daily automated updater (`tgpc/automation/daily_updater.py`) -/

/-- The fields of the validation report read downstream.  `integrity_score`
is `clean / total` (`0` on empty input); Python's float arithmetic is
modelled with rationals. -/
structure ValidationReport where
  total_input_records : Nat
  duplicates_found : Nat
  invalid_records : Nat
  clean_records : Nat
  integrity_score : Rat
deriving DecidableEq

/-- Loop body of `DataIntegrityValidator.validate_records`: returns
(clean records, duplicates found, invalid records), with `seen` the set of
registration numbers already kept. -/
def validateRecordsAux : List String → List PharmacistRecord →
    List PharmacistRecord × Nat × Nat
  | _, [] => ([], 0, 0)
  | seen, r :: rs =>
      if validate r ≠ [] then
        let t := validateRecordsAux seen rs
        (t.1, t.2.1, t.2.2 + 1)
      else if seen.contains r.registration_number then
        let t := validateRecordsAux seen rs
        (t.1, t.2.1 + 1, t.2.2)
      else
        let t := validateRecordsAux (r.registration_number :: seen) rs
        (r :: t.1, t.2.1, t.2.2)

/-- `DataIntegrityValidator.validate_records`. -/
def validate_records (records : List PharmacistRecord) :
    List PharmacistRecord × ValidationReport :=
  let t := validateRecordsAux [] records
  let total := records.length
  let score : Rat := if total > 0 then (t.1.length : Rat) / total else 0
  (t.1, { total_input_records := total, duplicates_found := t.2.1,
          invalid_records := t.2.2, clean_records := t.1.length,
          integrity_score := score })

/-- The safety thresholds set in `DailyUpdater.__init__`. -/
structure UpdaterThresholds where
  max_record_change_percent : Rat := 5
  min_integrity_score : Rat := 19 / 20
  min_records_threshold : Nat := 80000
deriving DecidableEq

/-- The thresholds the constructor installs (5 %, 0.95, 80,000). -/
def defaultThresholds : UpdaterThresholds := {}

/-- The result dictionary of `DailyUpdater._perform_safety_checks`. -/
structure SafetyResult where
  passed : Bool
  critical : Bool
  errors : List String
  warnings : List String
deriving DecidableEq

/-- Check 1 of `_perform_safety_checks`: minimum records threshold. -/
def checkMinRecords (t : UpdaterThresholds) (new_count : Nat)
    (r : SafetyResult) : SafetyResult :=
  if new_count < t.min_records_threshold then
    { r with
      passed := false, critical := true,
      errors := r.errors ++ ["Record count too low"] }
  else r

/-- Check 2: data integrity score. -/
def checkIntegrity (t : UpdaterThresholds) (report : ValidationReport)
    (r : SafetyResult) : SafetyResult :=
  if report.integrity_score < t.min_integrity_score then
    { r with
      passed := false, critical := true,
      errors := r.errors ++ ["Data integrity too low"] }
  else r

/-- Check 3: record-count change percentage versus a non-empty prior
dataset. -/
def checkChange (t : UpdaterThresholds) (existing_count new_count : Nat)
    (r : SafetyResult) : SafetyResult :=
  if existing_count > 0 then
    (let change_percent : Rat :=
      |(new_count : Rat) - (existing_count : Rat)| / (existing_count : Rat) * 100
     if change_percent > t.max_record_change_percent then
       { r with
         passed := false, critical := true,
         errors := r.errors ++ ["Record count change too large"] }
     else r)
  else r

/-- Check 4: duplicates found (warning only). -/
def checkDuplicates (report : ValidationReport) (r : SafetyResult) : SafetyResult :=
  if report.duplicates_found > 0 then
    { r with warnings := r.warnings ++ ["Found and removed duplicates"] }
  else r

/-- Check 5: invalid-record rate above 1 % (warning only). -/
def checkInvalid (report : ValidationReport) (r : SafetyResult) : SafetyResult :=
  if report.invalid_records > 0 then
    (let invalid_percent : Rat :=
      (report.invalid_records : Rat) / (report.total_input_records : Rat) * 100
     if invalid_percent > 1 then
       { r with warnings := r.warnings ++ ["High invalid record rate"] }
     else r)
  else r

/-- `DailyUpdater._perform_safety_checks`, the five checks in source order
(messages keep the source prefixes without the interpolated numbers). -/
def perform_safety_checks (t : UpdaterThresholds) (existing_count new_count : Nat)
    (report : ValidationReport) : SafetyResult :=
  checkInvalid report (checkDuplicates report
    (checkChange t existing_count new_count
      (checkIntegrity t report
        (checkMinRecords t new_count ⟨true, false, [], []⟩))))

/-- The `UpdateResult` dataclass (the wall-clock timestamp is not modelled). -/
structure UpdateResult where
  success : Bool
  total_records : Nat
  new_records : Nat
  removed_records : Nat
  duplicates_found : Nat
  duplicates_removed : Nat
  data_integrity_score : Rat
  backup_created : String
  errors : List String
  warnings : List String
deriving DecidableEq

/-- Registration numbers of a record list, as a finite set (Python builds
`{r.registration_number for r in records}`). -/
def regSet (l : List PharmacistRecord) : Finset String :=
  (l.map (fun r => r.registration_number)).toFinset

/-- `DailyUpdater._calculate_changes`: (new additions, removals), as
set-difference cardinalities. -/
def calculate_changes (existing fresh : List PharmacistRecord) : Nat × Nat :=
  ((regSet fresh \ regSet existing).card, (regSet existing \ regSet fresh).card)

/-- The top-level handler message produced when step 7 of
`perform_daily_update` raises: the call
`self.engine.save_records(clean_records, "rx.json", basic_only=True)` passes a
`basic_only` keyword that `TGPCEngine.save_records(self, records, filename)`
does not accept, so Python raises `TypeError` before any write. -/
def updateFailedMessage : String :=
  "Update failed: save_records() got an unexpected keyword argument basic_only"

/-- `DailyUpdater.perform_daily_update`, modelled as a pure function of the
prior dataset contents and the freshly extracted records; the second component
is the dataset file contents after the run.  On the non-critical path the
source reaches step 7, whose `basic_only=True` keyword raises `TypeError`
(see `updateFailedMessage`), so the top-level handler returns the zeroed
failed result and the file is never written. -/
def perform_daily_update (t : UpdaterThresholds)
    (existing fresh : List PharmacistRecord) (backupPath : String) :
    UpdateResult × List PharmacistRecord :=
  let v := validate_records fresh
  let safety := perform_safety_checks t existing.length v.1.length v.2
  if safety.critical then
    ({ success := false, total_records := existing.length, new_records := 0,
       removed_records := 0, duplicates_found := v.2.duplicates_found,
       duplicates_removed := v.2.duplicates_found,
       data_integrity_score := v.2.integrity_score, backup_created := backupPath,
       errors := safety.errors, warnings := safety.warnings }, existing)
  else
    ({ success := false, total_records := 0, new_records := 0,
       removed_records := 0, duplicates_found := 0, duplicates_removed := 0,
       data_integrity_score := 0, backup_created := "",
       errors := [updateFailedMessage], warnings := [] }, existing)

/-! ## Orchestration manager (`tgpc/manager.py`) -/

/-- Insertion into a Python `dict` modelled as an association list: an
existing key keeps its position and takes the new value, a new key is
appended. -/
def dictInsert (d : List (String × PharmacistRecord)) (k : String)
    (v : PharmacistRecord) : List (String × PharmacistRecord) :=
  if d.any (fun p => p.1 = k) then
    d.map (fun p => if p.1 = k then (k, v) else p)
  else d ++ [(k, v)]

/-- The `Manager.run_daily_update` deduplication step:
`{r.registration_number: r for r in fresh_records}.values()`. -/
def managerDedup (l : List PharmacistRecord) : List PharmacistRecord :=
  (l.foldl (fun d r => dictInsert d r.registration_number r) []).map (fun p => p.2)

/-! ## Orchestration engine (`tgpc/core/engine.py`) -/

/-- The sync-result dictionary of `TGPCEngine.sync_with_website`. -/
structure SyncResult where
  status : String
  total_records : Nat
  new_records : Nat
  removed_records : Nat
deriving DecidableEq

/-- `TGPCEngine.sync_with_website`, over the dataset file contents (`none`
when the file is absent) and the freshly extracted records.  The write path
delegates to `FileManager.save_records`, which raises `ValueError` on an
empty record list; that raising path is the `Except.error` case. -/
def sync_with_website (file : Option (List PharmacistRecord))
    (current : List PharmacistRecord) :
    Except String (SyncResult × Option (List PharmacistRecord)) :=
  let existing := file.getD []
  let newRegs := regSet current \ regSet existing
  let removedRegs := regSet existing \ regSet current
  if newRegs.Nonempty ∨ removedRegs.Nonempty then
    if current.isEmpty then .error "No records to save"
    else .ok ({ status := "updated", total_records := current.length,
                new_records := newRegs.card, removed_records := removedRegs.card },
              some current)
  else
    .ok ({ status := "no_changes", total_records := existing.length,
           new_records := 0, removed_records := 0 }, file)

/-! ## Parsed HTML responses

Both extraction engines consume a `BeautifulSoup` parse of the response: the
raw body text plus the table structure.  A cell records whether its tag is
`td` (header cells are `th`), its stripped text, and the `src` of an embedded
`img` if present. -/

/-- One table cell of the parsed response. -/
structure Cell where
  isTd : Bool
  text : String
  imgSrc : Option String := none
deriving DecidableEq

/-- A parsed response body: raw text and the tables found in it. -/
structure Body where
  text : String
  tables : List (List (List Cell)) := []
deriving DecidableEq

/-- `row.find_all("td")`. -/
def tdCells (row : List Cell) : List Cell := row.filter (fun c => c.isTd)

/-- Specification-side: the data rows of a listing table (rows with at least
one `td` cell). -/
def dataRowsOf (table : List (List Cell)) : List (List Cell) :=
  table.filter (fun r => !(tdCells r).isEmpty)

/-- Specification-side: the first-column values of every data row (the texts
the total-count operations collect). -/
def firstColTexts (table : List (List Cell)) : List String :=
  (dataRowsOf table).filterMap (fun r => ((tdCells r).head?).map (fun c => c.text))

/-! ## Rich extraction engine (`tgpc/extractors/pharmacist_extractor.py`) -/

namespace PharmacistExtractor

/-- `PharmacistExtractor.extract_total_count` from the located listing table:
rows with at least one `td` are the data rows (raising when there are none);
first-column values passing `str.isdigit` are collected as integers, and the
count is the number of distinct such integers when any exist, else the data
row count. -/
def extract_total_count (table : List (List Cell)) : Except String Nat :=
  let data_rows := table.filter (fun r => !(tdCells r).isEmpty)
  if data_rows.isEmpty then .error "No pharmacist rows found in table"
  else
    let serial_numbers := data_rows.filterMap (fun r =>
      match (tdCells r).head? with
      | some c => if pyIsDigit c.text then some (digitsToNat c.text.data) else none
      | none => none)
    if !serial_numbers.isEmpty then .ok serial_numbers.dedup.length
    else .ok data_rows.length

/-- One education row (`EducationRecord` dataclass). -/
structure EducationRecord where
  qualification : String
  board_university : String
  college_name : String
  college_address : String
  academic_year_from : String
  academic_year_to : String
  hallticket_no : String
deriving DecidableEq

/-- Work-experience block (`WorkExperience` dataclass). -/
structure WorkExperience where
  address : String
  state : String
  district : String
  pincode : String
deriving DecidableEq

/-- A calendar date as parsed by `datetime.strptime(_, "%d-%b-%Y")`. -/
structure DMYDate where
  day : Nat
  month : Nat
  year : Nat
deriving DecidableEq

/-- The twelve month abbreviations `%b` recognizes (matched
case-insensitively). -/
def monthAbbrevs : List String :=
  ["jan", "feb", "mar", "apr", "may", "jun",
   "jul", "aug", "sep", "oct", "nov", "dec"]

/-- Gregorian leap-year test. -/
def isLeapYear (y : Nat) : Bool :=
  y % 4 = 0 && (y % 100 ≠ 0 || y % 400 = 0)

/-- Days in a month, for `strptime`'s date validation. -/
def daysInMonth (m y : Nat) : Nat :=
  if m = 1 || m = 3 || m = 5 || m = 7 || m = 8 || m = 10 || m = 12 then 31
  else if m = 4 || m = 6 || m = 9 || m = 11 then 30
  else if isLeapYear y then 29 else 28

/-- Split a character list on `-` separators. -/
def splitOnDash (l : List Char) : List (List Char) :=
  match l with
  | [] => [[]]
  | c :: t =>
      if c = '-' then [] :: splitOnDash t
      else
        match splitOnDash t with
        | [] => [[c]]
        | h :: r => (c :: h) :: r

/-- `datetime.strptime(s, "%d-%b-%Y")`, `none` on `ValueError`: one-or-two
digit day, three-letter month abbreviation (case-insensitive), four-digit
year, with the day validated against the month. -/
def parseDMY (s : String) : Option DMYDate :=
  match splitOnDash s.data with
  | [ds, ms, ys] =>
      let dOK := ds.length ≥ 1 && ds.length ≤ 2 && ds.all isDigitChar
      let yOK := ys.length = 4 && ys.all isDigitChar
      match monthAbbrevs.findIdx? (fun a => a = asciiLower (String.mk ms)) with
      | some m0 =>
          let d := digitsToNat ds
          let y := digitsToNat ys
          if dOK && yOK && 1 ≤ d && d ≤ daysInMonth (m0 + 1) y then
            some { day := d, month := m0 + 1, year := y }
          else none
      | none => none
  | _ => none

/-- The `record_data` dictionary `_parse_detailed_response` accumulates. -/
structure DetailData where
  name : String := ""
  father_name : String := ""
  category : String := ""
  status : String := ""
  gender : String := ""
  validity : String := ""
  photo_data : Option String := none
  education : List EducationRecord := []
  work_experience : Option WorkExperience := none
deriving DecidableEq

/-- The header-to-field `elif` chain of `_parse_main_info_table`, applied to
the `i`-th header/data-cell pair. -/
def applyMainHeader (numHeaders i : Nat) (header : String) (cell : Cell)
    (d : DetailData) : DetailData :=
  let h := asciiLower header
  let value := cell.text
  if hasSub h "name" && !(hasSub h "father") then { d with name := value }
  else if hasSub h "father" || hasSub h "husband" then { d with father_name := value }
  else if hasSub h "category" || hasSub h "qualification" then { d with category := value }
  else if hasSub h "status" then { d with status := value }
  else if hasSub h "gender" || hasSub h "sex" then { d with gender := value }
  else if hasSub h "validity" then { d with validity := value }
  else if hasSub h "photo" || i = numHeaders - 1 then
    match cell.imgSrc with
    | some src =>
        if src ≠ "" && (hasSub src "data:image" || src.data.any Char.isAlphanum) then
          { d with photo_data := some src }
        else d
    | none => d
  else d

/-- `_parse_main_info_table`: needs a header row and a data row; headers come
from every cell of the first row, data cells are the `td`s of the second;
iteration stops at the shorter of the two (the source `break`s when the cell
index runs out). -/
def parse_main_info_table (table : List (List Cell)) (d : DetailData) : DetailData :=
  match table with
  | hrow :: drow :: _ =>
      let headers := hrow.map (fun c => c.text)
      let cells := tdCells drow
      ((headers.zip cells).enum).foldl
        (fun acc p => applyMainHeader headers.length p.1 p.2.1 p.2.2 acc) d
  | _ => d

/-- `_parse_education_table`: every row after the header with at least seven
cells contributes one positional education record. -/
def parse_education_table (table : List (List Cell)) (d : DetailData) : DetailData :=
  match table with
  | _ :: r2 :: rest =>
      { d with
        education := (r2 :: rest).foldl (fun acc row =>
          let cells := row.map (fun c => c.text)
          if cells.length ≥ 7 then
            acc ++ [{ qualification := cells.getD 0 "",
                      board_university := cells.getD 1 "",
                      college_name := cells.getD 2 "",
                      college_address := cells.getD 3 "",
                      academic_year_from := cells.getD 4 "",
                      academic_year_to := cells.getD 5 "",
                      hallticket_no := cells.getD 6 "" }]
          else acc) d.education }
  | _ => d

/-- `_parse_work_info_table`: the second row's `td` cells, when at least four,
fill the positional work-experience block. -/
def parse_work_info_table (table : List (List Cell)) (d : DetailData) : DetailData :=
  match table with
  | _ :: drow :: _ =>
      let cells := (tdCells drow).map (fun c => c.text)
      if cells.length ≥ 4 then
        { d with
          work_experience := some { address := cells.getD 0 "",
                                    state := cells.getD 1 "",
                                    district := cells.getD 2 "",
                                    pincode := cells.getD 3 "" } }
      else d
  | _ => d

/-- The detailed record the rich engine returns: the `PharmacistRecord`
construction applies the normalizing cleaners of `__post_init__`. -/
structure DetailRecord where
  registration_number : String
  name : String
  father_name : String
  category : String
  status : String
  gender : String
  validity_date : Option DMYDate
  photo_data : Option String
  education : List EducationRecord
  work_experience : Option WorkExperience
deriving DecidableEq

/-- `_parse_detailed_response`: `none` when no tables parse; otherwise the
three tables fill `record_data` and the normalizing constructor runs (whose
registration-number cleaning can raise, the `Except.error` case, re-raised as
a parsing error by the source). -/
def parse_detailed_response (body : Body) (registration_number : String) :
    Except String (Option DetailRecord) :=
  if body.tables.isEmpty then .ok none
  else
    let d0 : DetailData := {}
    let d1 := match body.tables.head? with
      | some t => parse_main_info_table t d0
      | none => d0
    let d2 := match body.tables.get? 1 with
      | some t => parse_education_table t d1
      | none => d1
    let d3 := match body.tables.get? 2 with
      | some t => parse_work_info_table t d2
      | none => d2
    match clean_registration_number registration_number with
    | .error e => .error e
    | .ok reg =>
        .ok (some { registration_number := reg,
                    name := clean_name d3.name,
                    father_name := clean_name d3.father_name,
                    category := clean_category d3.category,
                    status := d3.status, gender := d3.gender,
                    validity_date := parseDMY d3.validity,
                    photo_data := d3.photo_data,
                    education := d3.education,
                    work_experience := d3.work_experience })

/-- `PharmacistExtractor.extract_detailed_info` over the parsed response:
the not-found sentinel check — the two exact case-sensitive substrings
`"No Records Found"` and `"No records found"` — short-circuits to `none`,
otherwise the body is parsed. -/
def extract_detailed_info (registration_number : String) (body : Body) :
    Except String (Option DetailRecord) :=
  if hasSub body.text "No Records Found" || hasSub body.text "No records found" then
    .ok none
  else parse_detailed_response body registration_number

end PharmacistExtractor

/-! ## Simple extraction engine (`tgpc/scraper.py`) -/

namespace Scraper

/-- `Scraper.get_total_count` from the located table: rows with a `td` cell
are counted; first-column values that `int(...)` accepts are collected, the
count being the number of distinct such integers when any exist, else the row
count (per-row `ValueError`s are swallowed). -/
def get_total_count (table : List (List Cell)) : Nat :=
  let rows := table.filter (fun r => !(tdCells r).isEmpty)
  let serials := rows.filterMap (fun r =>
    match (tdCells r).head? with
    | some c => pythonInt c.text
    | none => none)
  if !serials.isEmpty then serials.dedup.length else rows.length

/-- The field assignments `Scraper.extract_detailed_info` collects from the
main table; a field stays unassigned (`none`) when no header matches, and a
missing `name`, `father_name` or `category` later makes the
`PharmacistRecord(**data)` call raise `TypeError` (swallowed into `None`). -/
structure MainData where
  name : Option String := none
  father_name : Option String := none
  category : Option String := none
  status : Option String := none
  gender : Option String := none
  validity_date : Option PharmacistExtractor.DMYDate := none
deriving DecidableEq

/-- The header-to-field `elif` chain of the simple engine (headers are
lower-cased up front; the validity date is stored only when `strptime`
succeeds). -/
def applyHeader (header value : String) (d : MainData) : MainData :=
  if hasSub header "name" && !(hasSub header "father") then { d with name := some value }
  else if hasSub header "father" then { d with father_name := some value }
  else if hasSub header "category" then { d with category := some value }
  else if hasSub header "status" then { d with status := some value }
  else if hasSub header "gender" then { d with gender := some value }
  else if hasSub header "validity" then
    match PharmacistExtractor.parseDMY value with
    | some dt => { d with validity_date := some dt }
    | none => d
  else d

/-- The plain (non-normalizing) record dataclass of `tgpc/scraper.py`. -/
structure Record where
  registration_number : String
  name : String
  father_name : String
  category : String
  serial_number : Option Int := none
  status : String := ""
  gender : String := ""
  validity_date : Option PharmacistExtractor.DMYDate := none
  photo_data : Option String := none
deriving DecidableEq

/-- The field assignments collected from the first table (`tables[0]`):
lower-cased headers paired with the data row's `td` cells, stopping at the
shorter list (the source `break`s when the cell index runs out). -/
def mainData (body : Body) : MainData :=
  match body.tables.head? with
  | some (hrow :: drow :: _) =>
      let headers := hrow.map (fun c => asciiLower c.text)
      let cells := tdCells drow
      (headers.zip cells).foldl (fun acc p => applyHeader p.1 p.2.text acc) {}
  | _ => {}

/-- `Scraper.extract_detailed_info` over the parsed response.  `none` when
the case-sensitive sentinel `"No Records Found"` occurs, when no tables are
found, or when the main table yields no `name`/`father_name`/`category`
(the construction `TypeError` is swallowed by the enclosing handler). -/
def extract_detailed_info (reg_no : String) (body : Body) : Option Record :=
  if hasSub body.text "No Records Found" then none
  else if body.tables.isEmpty then none
  else
    let data := mainData body
    match data.name, data.father_name, data.category with
    | some n, some f, some c =>
        some { registration_number := reg_no, name := n, father_name := f,
               category := c, status := data.status.getD "",
               gender := data.gender.getD "",
               validity_date := data.validity_date }
    | _, _, _ => none

end Scraper

/-! ## Adaptive circuit-breaker rate limiter (`tgpc/extractors/rate_limiter.py`) -/

namespace RateLimiter

/-- The mutable state of the rate limiter (delays and the response-time
average as rationals; the wall-clock breaker-opening instant is reduced to
its flag, the 300 s timeout comparison entering as a Boolean input). -/
structure RLState where
  current_delay : Rat
  consecutive_failures : Nat
  circuit_breaker_open : Bool
  requests_since_break : Nat
  total_requests : Nat
  successful_requests : Nat
  failed_requests : Nat
  blocked_requests : Nat
  average_response_time : Rat
deriving DecidableEq

/-- `RateLimiter.__init__`: the delay is seeded at `min_delay`. -/
def init (min_delay : Rat) : RLState :=
  { current_delay := min_delay, consecutive_failures := 0,
    circuit_breaker_open := false, requests_since_break := 0,
    total_requests := 0, successful_requests := 0, failed_requests := 0,
    blocked_requests := 0, average_response_time := 0 }

/-- `RateLimiter._on_success`: shrink the delay by 10 % with floor
`min_delay`, and close the breaker. -/
def on_success (min_delay : Rat) (s : RLState) : RLState :=
  { s with
    current_delay := max min_delay (s.current_delay * (9 / 10)),
    circuit_breaker_open := false }

/-- `RateLimiter._on_failure`: grow the delay by 50 % with cap `max_delay`,
and open the breaker at five consecutive failures. -/
def on_failure (max_delay : Rat) (s : RLState) : RLState :=
  let s1 := { s with current_delay := min max_delay (s.current_delay * (3 / 2)) }
  if s1.consecutive_failures ≥ 5 then { s1 with circuit_breaker_open := true }
  else s1

/-- `RateLimiter._on_blocked` (HTTP 403/429): double the delay with cap
`max_delay` (the blocking adaptive pause is a sleep, not state). -/
def on_blocked (max_delay : Rat) (s : RLState) : RLState :=
  { s with current_delay := min max_delay (s.current_delay * 2) }

/-- The stats bookkeeping prefix of `record_request`: bump the total and fold
the response time into the exponential moving average (`α = 0.1`; the first
request seeds it). -/
def recordStats (s : RLState) (response_time : Rat) : RLState :=
  let s0 := { s with total_requests := s.total_requests + 1 }
  if s0.total_requests = 1 then
    { s0 with average_response_time := response_time }
  else
    { s0 with
      average_response_time :=
        (1 / 10) * response_time + (9 / 10) * s0.average_response_time }

/-- The success/failure dispatch of `record_request` (counters updated before
the handlers run, as in the source). -/
def recordOutcome (min_delay max_delay : Rat) (s : RLState) (success : Bool) :
    RLState :=
  if success then
    on_success min_delay
      { s with
        successful_requests := s.successful_requests + 1,
        consecutive_failures := 0 }
  else
    on_failure max_delay
      { s with
        failed_requests := s.failed_requests + 1,
        consecutive_failures := s.consecutive_failures + 1 }

/-- `RateLimiter.record_request`: stats bookkeeping, then the
success/failure handler, then the blocked handler on HTTP 403/429. -/
def record_request (min_delay max_delay : Rat) (s : RLState)
    (response_time : Rat) (status_code : Nat) (success : Bool) : RLState :=
  let s2 := recordOutcome min_delay max_delay (recordStats s response_time) success
  if status_code = 403 ∨ status_code = 429 then
    on_blocked max_delay { s2 with blocked_requests := s2.blocked_requests + 1 }
  else s2

/-- `RateLimiter._take_long_break`: reset the counter and the delay to
`min_delay` after the sleep. -/
def take_long_break (min_delay : Rat) (s : RLState) : RLState :=
  { s with requests_since_break := 0, current_delay := min_delay }

/-- `RateLimiter._check_circuit_breaker`: when the breaker is open and the
300 s timeout has elapsed (`timed_out`), close it, clearing the failures and
resetting the delay to `min_delay`. -/
def check_circuit_breaker (min_delay : Rat) (s : RLState) (timed_out : Bool) :
    RLState :=
  if s.circuit_breaker_open && timed_out then
    { s with
      circuit_breaker_open := false, consecutive_failures := 0,
      current_delay := min_delay }
  else s

/-- `RateLimiter.reset`: fresh stats and the delay back at `min_delay`. -/
def reset (min_delay : Rat) (_ : RLState) : RLState := init min_delay

/-- The claimed state invariant: the current delay lies within the
configured band. -/
def delay_within (min_delay max_delay : Rat) (s : RLState) : Prop :=
  min_delay ≤ s.current_delay ∧ s.current_delay ≤ max_delay

end RateLimiter

/-! ## Embedded mirror and search API (`tgpc/database/schema.py`, `api/app.py`) -/

namespace Api

/-- One row of the `pharmacists` table projection the search returns. -/
structure DbRow where
  serial_number : Int
  registration_number : String
  name : String
  father_name : String
  category : String
deriving DecidableEq

/-- SQLite `LIKE` on character lists: `%` matches any run (tried as every
possible drop of the subject), `_` one character, plain characters compare up
to ASCII case folding. -/
def likeM : List Char → List Char → Bool
  | [], s => s.isEmpty
  | p :: ps, s =>
      if p = '%' then
        (List.range (s.length + 1)).any (fun k => likeM ps (s.drop k))
      else if p = '_' then
        (match s with
         | [] => false
         | _ :: t => likeM ps t)
      else
        (match s with
         | [] => false
         | c :: t => (asciiLowerChar c == asciiLowerChar p) && likeM ps t)

/-- SQLite `LIKE` on strings. -/
def sqlite_like (pattern s : String) : Bool := likeM pattern.data s.data

/-- Descending insertion by `serial_number` (the `ORDER BY serial_number
DESC` of `PharmacistDB.search`; `serial_number` is UNIQUE in the schema, so
tie order is immaterial). -/
def insertDesc (r : DbRow) : List DbRow → List DbRow
  | [] => [r]
  | x :: xs =>
      if r.serial_number ≥ x.serial_number then r :: x :: xs
      else x :: insertDesc r xs

/-- Rows sorted by `serial_number` descending. -/
def sortBySerialDesc (l : List DbRow) : List DbRow := l.foldr insertDesc []

/-- `PharmacistDB.search`: rows whose name or registration number matches
`LIKE "%query%"`, ordered by serial number descending, `LIMIT limit` (a
negative SQLite limit means no limit). -/
def db_search (db : List DbRow) (query : String) (limit : Int) : List DbRow :=
  let pattern := "%" ++ query ++ "%"
  let matched := (sortBySerialDesc db).filter (fun r =>
    sqlite_like pattern r.name || sqlite_like pattern r.registration_number)
  if limit < 0 then matched else matched.take limit.toNat

/-- The observable HTTP outcomes of the `/api/search` handler: an uncaught
exception (Flask's 500), the explicit 400, or the JSON payload. -/
inductive ApiResponse where
  | serverError : ApiResponse
  | badRequest (message : String) : ApiResponse
  | ok (query : String) (count : Nat) (results : List DbRow) : ApiResponse
deriving DecidableEq

/-- The effective limit of a request: `request.args.get("limit", 100)` is the
integer `100` when the parameter is absent, else the raw string goes through
`int(...)` (`none` on `ValueError`). -/
def limitFromParam (limitParam : Option String) : Option Int :=
  match limitParam with
  | none => some 100
  | some s => pythonInt s

/-- Specification-side: a query without SQL `LIKE` wildcard characters. -/
def noWildcards (q : String) : Bool :=
  q.data.all (fun c => c ≠ '%' && c ≠ '_')

/-- The `/api/search` handler of `api/app.py` over the mirror contents and
the raw query-string parameters: `int(request.args.get("limit", 100))` runs
before the `q` check and raises on a non-integer value; then a missing or
short `q` yields the 400; otherwise the §4.9 search result is wrapped with
its length. -/
def api_search (db : List DbRow) (qParam limitParam : Option String) :
    ApiResponse :=
  let query := qParam.getD ""
  match limitFromParam limitParam with
  | none => .serverError
  | some limit =>
      if query = "" || query.length < 2 then
        .badRequest "Query must be at least 2 characters"
      else
        let results := db_search db query limit
        .ok query results.length results

end Api

/-! ## Helper lemmas -/

/-- A successful lookup in the category dictionary returns one of its
values. -/
theorem lookup_mem_map_snd (l : List (String × String)) (c v : String)
    (h : l.lookup c = some v) : v ∈ l.map (fun p => p.2) := by
  induction l with
  | nil => simp [List.lookup] at h
  | cons p t ih =>
      obtain ⟨k, w⟩ := p
      simp only [List.lookup] at h
      by_cases hc : (c == k) = true
      · rw [hc] at h
        simp only [List.map_cons, List.mem_cons]
        exact Or.inl (Option.some.inj h).symm
      · rw [Bool.not_eq_true] at hc
        rw [hc] at h
        simp only [List.map_cons, List.mem_cons]
        exact Or.inr (ih h)

/-- Upper-casing fixes decimal digits. -/
theorem asciiUpperChar_of_digit (c : Char) (h : isDigitChar c = true) :
    asciiUpperChar c = c := by
  simp only [isDigitChar, Bool.and_eq_true, decide_eq_true_eq] at h
  unfold asciiUpperChar
  rw [if_neg]
  rintro ⟨h1, h2⟩
  exact absurd (le_trans h1 h.2) (by decide)

/-- Upper-casing fixes a list of characters it fixes pointwise. -/
theorem map_asciiUpperChar_eq_self (l : List Char)
    (h : ∀ c ∈ l, asciiUpperChar c = c) : l.map asciiUpperChar = l := by
  induction l with
  | nil => rfl
  | cons c t ih =>
      simp only [List.map_cons, h c (by simp), ih (fun x hx => h x (by simp [hx]))]

/-- Upper-casing fixes `"TS" ++ zfill 6 s` when `s` is all digits. -/
theorem asciiUpper_TS_zfill (s : String) (h : pyIsDigit s = true) :
    asciiUpper ("TS" ++ zfill 6 s) = "TS" ++ zfill 6 s := by
  simp only [pyIsDigit, Bool.and_eq_true, List.all_eq_true] at h
  have hfix : ∀ c ∈ ("TS" ++ zfill 6 s).data, asciiUpperChar c = c := by
    intro c hc
    rw [String.data_append] at hc
    rcases List.mem_append.mp hc with hl | hr
    · have hTS : ("TS" : String).data = ['T', 'S'] := rfl
      rw [hTS] at hl
      rcases hl with _ | ⟨_, _ | ⟨_, hnil⟩⟩
      · decide
      · decide
      · exact absurd hnil (List.not_mem_nil c)
    · have hdig : isDigitChar c = true := by
        unfold zfill at hr
        split_ifs at hr
        · exact h.2 c hr
        · rcases List.mem_append.mp hr with hz | hs
          · have := List.eq_of_mem_replicate hz
            subst this
            decide
          · exact h.2 c hs
      exact asciiUpperChar_of_digit c hdig
  show String.mk (("TS" ++ zfill 6 s).data.map asciiUpperChar) = _
  rw [map_asciiUpperChar_eq_self _ hfix]

/-! ## Claim C6 -/

/-- Claim C6 counterexample: the lower-case unrecognized value `"xyz"` does
not pass through unchanged — the cleaner strips and upper-cases it to
`"XYZ"`. -/
theorem clean_category_claim_counterexample :
    clean_category "xyz" = "XYZ" ∧ clean_category "xyz" ≠ "xyz" := by decide

/-- Claim C6 (amended): the normalizing category cleaner maps each
recognized variant to its canonical form in the fixed vocabulary (sampled
over every dictionary key below), and every other value passes through
stripped and upper-cased (hence unchanged when already stripped and
upper-case, e.g. `"XYZ"`). -/
theorem clean_category_normalization :
    (∀ s : String, clean_category s ∈ validCategories ∨
      clean_category s = asciiUpper (pyStrip s)) ∧
    clean_category "BPHARM" = "BPharm" ∧
    clean_category "B.PHARM" = "BPharm" ∧
    clean_category "B PHARM" = "BPharm" ∧
    clean_category "DPHARM" = "DPharm" ∧
    clean_category "D.PHARM" = "DPharm" ∧
    clean_category "D PHARM" = "DPharm" ∧
    clean_category "PHARMD" = "PharmD" ∧
    clean_category "PHARM.D" = "PharmD" ∧
    clean_category "PHARM D" = "PharmD" ∧
    clean_category "MPHARM" = "MPharm" ∧
    clean_category "M.PHARM" = "MPharm" ∧
    clean_category "M PHARM" = "MPharm" ∧
    clean_category "QP" = "QP" ∧
    clean_category "QC" = "QC" ∧
    clean_category "XYZ" = "XYZ" := by
  refine ⟨?_, by decide, by decide, by decide, by decide, by decide, by decide,
    by decide, by decide, by decide, by decide, by decide, by decide,
    by decide, by decide, by decide⟩
  intro s
  by_cases h : s = ""
  · subst h
    exact Or.inr (by decide)
  · have hunf : clean_category s =
        (match categoryMapping.lookup (asciiUpper (pyStrip s)) with
         | some v => v
         | none => asciiUpper (pyStrip s)) := by
      unfold clean_category
      rw [if_neg h]
    rw [hunf]
    cases hl : categoryMapping.lookup (asciiUpper (pyStrip s)) with
    | none => exact Or.inr rfl
    | some v =>
        left
        have hv := lookup_mem_map_snd _ _ _ hl
        have himp : ∀ x ∈ categoryMapping.map (fun p => p.2), x ∈ validCategories := by
          decide
        exact himp v hv

/-! ## Claim C3 -/

/-- Claim C3 counterexample: `"TS-123"` neither matches the pattern nor is
pure digits, yet the cleaner accepts it (upper-cased) instead of raising,
because the fallback only raises for strings not starting with the
case-sensitive `"TS"`/`"TG"`. -/
theorem clean_registration_number_claim_counterexample :
    matchesRegNoPattern "TS-123" = false ∧ pyIsDigit "TS-123" = false ∧
    clean_registration_number "TS-123" = .ok "TS-123" := by decide

/-- Claim C3 (amended): after stripping, a string matching
`^(TS|TG)[A-Z]*\d+$` case-insensitively is accepted upper-cased; a string of
pure digits is rewritten to `"TS"` plus the digits zero-padded to six; a
remaining mismatch raises only when the string does not start with the
case-sensitive `"TS"` or `"TG"` — otherwise it is accepted upper-cased.  The
empty string raises, `"42"` normalizes to `"TS000042"`, `"tg000099"` to
`"TG000099"`, and `"abc"` raises. -/
theorem clean_registration_number_characterization :
    (∀ s : String, s ≠ "" →
      (matchesRegNoPattern (pyStrip s) = true →
        clean_registration_number s = .ok (asciiUpper (pyStrip s))) ∧
      (matchesRegNoPattern (pyStrip s) = false → pyIsDigit (pyStrip s) = true →
        clean_registration_number s = .ok ("TS" ++ zfill 6 (pyStrip s))) ∧
      (matchesRegNoPattern (pyStrip s) = false → pyIsDigit (pyStrip s) = false →
        startsWithTSorTG (pyStrip s) = false →
        clean_registration_number s =
          .error ("Invalid registration number format: " ++ pyStrip s)) ∧
      (matchesRegNoPattern (pyStrip s) = false → pyIsDigit (pyStrip s) = false →
        startsWithTSorTG (pyStrip s) = true →
        clean_registration_number s = .ok (asciiUpper (pyStrip s)))) ∧
    clean_registration_number "" = .error "Registration number is required" ∧
    clean_registration_number "42" = .ok "TS000042" ∧
    clean_registration_number "tg000099" = .ok "TG000099" ∧
    clean_registration_number "abc" = .error "Invalid registration number format: abc" := by
  refine ⟨?_, by decide, by decide, by decide, by decide⟩
  intro s hs
  unfold clean_registration_number
  rw [if_neg hs]
  refine ⟨fun hm => ?_, fun hm hd => ?_, fun hm hd hst => ?_, fun hm hd hst => ?_⟩
  · rw [if_pos hm]
  · rw [if_neg (by simp [hm]), if_pos hd]
    rw [asciiUpper_TS_zfill _ hd]
  · rw [if_neg (by simp [hm]), if_neg (by simp [hd]), if_pos (by simp [hst])]
  · rw [if_neg (by simp [hm]), if_neg (by simp [hd]), if_neg (by simp [hst])]

/-- Claim C3 witness: the amended characterization applied at `"42"`
(pure-digit branch) and at `"TS-123"` (mismatching accept branch). -/
theorem clean_registration_number_characterization_witness :
    clean_registration_number "42" = .ok ("TS" ++ zfill 6 (pyStrip "42")) ∧
    clean_registration_number "TS-123" = .ok (asciiUpper (pyStrip "TS-123")) := by
  constructor
  · exact (clean_registration_number_characterization.1 "42" (by decide)).2.1
      (by decide) (by decide)
  · exact (clean_registration_number_characterization.1 "TS-123" (by decide)).2.2.2
      (by decide) (by decide) (by decide)

/-! ## Claims C1 and C8 -/

/-- The critical flag of the safety checks depends only on the three critical
conditions: record floor, integrity floor, relative-change cap.  Duplicates
and a high invalid rate never set it. -/
theorem safety_critical_iff (t : UpdaterThresholds) (e n : Nat)
    (rep : ValidationReport) :
    (perform_safety_checks t e n rep).critical = true ↔
      (n < t.min_records_threshold ∨
       rep.integrity_score < t.min_integrity_score ∨
       (0 < e ∧
         |(n : Rat) - (e : Rat)| / (e : Rat) * 100 > t.max_record_change_percent)) := by
  have h5 : ∀ r : SafetyResult, (checkInvalid rep r).critical = r.critical := by
    intro r
    unfold checkInvalid
    dsimp only
    split_ifs <;> rfl
  have h4 : ∀ r : SafetyResult, (checkDuplicates rep r).critical = r.critical := by
    intro r
    unfold checkDuplicates
    split_ifs <;> rfl
  have h3 : ∀ r : SafetyResult, (checkChange t e n r).critical = true ↔
      (r.critical = true ∨
        (0 < e ∧
          |(n : Rat) - (e : Rat)| / (e : Rat) * 100 > t.max_record_change_percent)) := by
    intro r
    unfold checkChange
    dsimp only
    split_ifs with he hc <;> simp_all
  have h2 : ∀ r : SafetyResult, (checkIntegrity t rep r).critical = true ↔
      (r.critical = true ∨ rep.integrity_score < t.min_integrity_score) := by
    intro r
    unfold checkIntegrity
    split_ifs <;> simp_all
  have h1 : (checkMinRecords t n ⟨true, false, [], []⟩).critical = true ↔
      n < t.min_records_threshold := by
    unfold checkMinRecords
    split_ifs <;> simp_all
  unfold perform_safety_checks
  rw [h5, h4, h3, h2, h1]
  tauto

/-- Claim C1: when the validated fresh record count is below 80,000, or the
integrity score is below 0.95, or the relative record-count change versus a
non-empty prior dataset exceeds 5 %, `perform_daily_update` returns
`success = false`, leaves the dataset contents unchanged, and reports the
prior dataset's count.  A score of exactly `0.95` passes the integrity gate
while `0.94999` fails it, and the critical flag depends only on the three
critical conditions (duplicates and a high invalid rate add warnings but
never abort). -/
theorem daily_update_safety_aborts :
    (∀ (existing fresh : List PharmacistRecord) (backup : String),
      ((validate_records fresh).1.length < 80000 ∨
       (validate_records fresh).2.integrity_score < 19 / 20 ∨
       (existing ≠ [] ∧
         |((validate_records fresh).1.length : Rat) - (existing.length : Rat)| /
           (existing.length : Rat) * 100 > 5)) →
      (perform_daily_update defaultThresholds existing fresh backup).1.success = false ∧
      (perform_daily_update defaultThresholds existing fresh backup).2 = existing ∧
      (perform_daily_update defaultThresholds existing fresh backup).1.total_records =
        existing.length) ∧
    (perform_safety_checks defaultThresholds 0 80000
      { total_input_records := 20, duplicates_found := 0, invalid_records := 0,
        clean_records := 19, integrity_score := 19 / 20 }).critical = false ∧
    (perform_safety_checks defaultThresholds 0 80000
      { total_input_records := 100000, duplicates_found := 0, invalid_records := 0,
        clean_records := 94999, integrity_score := 94999 / 100000 }).critical = true ∧
    (∀ (e n : Nat) (rep : ValidationReport),
      (perform_safety_checks defaultThresholds e n rep).critical = true ↔
        (n < 80000 ∨ rep.integrity_score < 19 / 20 ∨
         (0 < e ∧ |(n : Rat) - (e : Rat)| / (e : Rat) * 100 > 5))) := by
  refine ⟨?_, ?_, ?_, fun e n rep => safety_critical_iff _ e n rep⟩
  · intro existing fresh backup hcond
    have hcrit : (perform_safety_checks defaultThresholds existing.length
        (validate_records fresh).1.length (validate_records fresh).2).critical = true := by
      rw [safety_critical_iff]
      rcases hcond with h | h | ⟨hne, hch⟩
      · exact Or.inl h
      · exact Or.inr (Or.inl h)
      · exact Or.inr (Or.inr ⟨List.length_pos.mpr hne, hch⟩)
    unfold perform_daily_update
    rw [if_pos hcrit]
    exact ⟨rfl, rfl, rfl⟩
  · rw [Bool.eq_false_iff]
    intro htrue
    have hc := (safety_critical_iff defaultThresholds 0 80000
      { total_input_records := 20, duplicates_found := 0, invalid_records := 0,
        clean_records := 19, integrity_score := 19 / 20 }).mp htrue
    norm_num [defaultThresholds] at hc
  · apply (safety_critical_iff defaultThresholds 0 80000
      { total_input_records := 100000, duplicates_found := 0, invalid_records := 0,
        clean_records := 94999, integrity_score := 94999 / 100000 }).mpr
    right
    left
    norm_num [defaultThresholds]

/-- Claim C1 witness: an empty fresh extraction trips the 80,000-record
floor, so the update fails with the prior (empty) dataset untouched. -/
theorem daily_update_safety_aborts_witness :
    (perform_daily_update defaultThresholds [] [] "").1.success = false ∧
    (perform_daily_update defaultThresholds [] [] "").2 = [] ∧
    (perform_daily_update defaultThresholds [] [] "").1.total_records = 0 := by
  have h := daily_update_safety_aborts.1 [] [] "" (Or.inl (by decide))
  exact ⟨h.1, h.2.1, h.2.2⟩

/-- Claim C8 (code bug): no run of `perform_daily_update` ever succeeds or
writes — on the non-critical path step 7 passes `basic_only=True` to
`TGPCEngine.save_records`, which has no such parameter, so `TypeError` is
raised before any write, the top-level handler returns the zeroed failed
result, and the post-write verification of step 8 is never reached.  When
the safety checks pass, the returned errors are exactly the top-level
`TypeError` message. -/
theorem daily_update_never_succeeds :
    (∀ (t : UpdaterThresholds) (existing fresh : List PharmacistRecord)
       (backup : String),
      (perform_daily_update t existing fresh backup).1.success = false ∧
      (perform_daily_update t existing fresh backup).2 = existing) ∧
    (∀ (t : UpdaterThresholds) (existing fresh : List PharmacistRecord)
       (backup : String),
      (perform_safety_checks t existing.length (validate_records fresh).1.length
        (validate_records fresh).2).critical = false →
      (perform_daily_update t existing fresh backup).1.errors =
        [updateFailedMessage]) := by
  constructor
  · intro t existing fresh backup
    unfold perform_daily_update
    dsimp only
    split_ifs <;> exact ⟨rfl, rfl⟩
  · intro t existing fresh backup hok
    unfold perform_daily_update
    dsimp only
    rw [if_neg (by rw [hok]; exact Bool.false_ne_true)]

/-- Claim C8 witness: with zeroed thresholds the safety checks pass on empty
data, and the returned failure carries exactly the `TypeError` message. -/
theorem daily_update_never_succeeds_witness :
    (perform_daily_update
      { max_record_change_percent := 100, min_integrity_score := 0,
        min_records_threshold := 0 } [] [] "").1.errors = [updateFailedMessage] := by
  exact daily_update_never_succeeds.2
    { max_record_change_percent := 100, min_integrity_score := 0,
      min_records_threshold := 0 } [] [] "" (by decide)

/-! ## Claim C7 -/

/-- Two finite sets differ exactly when one of the two set differences is
non-empty. -/
theorem finset_diff_nonempty_iff_ne (A B : Finset String) :
    ((A \ B).Nonempty ∨ (B \ A).Nonempty) ↔ A ≠ B := by
  constructor
  · rintro (h | h) heq
    · rw [heq] at h
      simp at h
    · rw [heq] at h
      simp at h
  · intro hne
    by_contra hcon
    push_neg at hcon
    obtain ⟨h1, h2⟩ := hcon
    rw [Finset.not_nonempty_iff_eq_empty] at h1 h2
    exact hne (Finset.Subset.antisymm
      (Finset.sdiff_eq_empty_iff_subset.mp h1)
      (Finset.sdiff_eq_empty_iff_subset.mp h2))

/-- Claim C7 counterexample: with a non-empty prior dataset and an empty
fresh extraction the registration-number sets differ, but instead of
overwriting and reporting `"updated"` the sync raises — the file manager
refuses to save an empty record list (`ValueError: No records to save`), so
no result is produced and no write occurs. -/
theorem sync_with_website_claim_counterexample :
    regSet [] ≠
      regSet [{ registration_number := "TS000001", name := "Alice",
                father_name := "X", category := "BPharm" }] ∧
    sync_with_website
      (some [{ registration_number := "TS000001", name := "Alice",
               father_name := "X", category := "BPharm" }]) [] =
      .error "No records to save" := by
  constructor
  · intro h
    have : ("TS000001" : String) ∈ (∅ : Finset String) := by
      rw [show (∅ : Finset String) = regSet [] from rfl, h]
      decide
    simp at this
  · rfl

/-- Claim C7 (amended): when the fresh and existing registration-number sets
are equal the sync reports `"no_changes"` with zero counts and the file is
untouched; when they differ and the fresh set is non-empty the file is
overwritten with the complete fresh set and the sync reports `"updated"`
with the set-difference counts; when they differ but the fresh extraction is
empty the save raises `ValueError` and no write occurs. -/
theorem sync_with_website_characterization :
    ∀ (file : Option (List PharmacistRecord)) (current : List PharmacistRecord),
      (regSet current = regSet (file.getD []) →
        sync_with_website file current =
          .ok ({ status := "no_changes", total_records := (file.getD []).length,
                 new_records := 0, removed_records := 0 }, file)) ∧
      (regSet current ≠ regSet (file.getD []) → current ≠ [] →
        sync_with_website file current =
          .ok ({ status := "updated", total_records := current.length,
                 new_records := (regSet current \ regSet (file.getD [])).card,
                 removed_records := (regSet (file.getD []) \ regSet current).card },
               some current)) ∧
      (regSet current ≠ regSet (file.getD []) → current = [] →
        sync_with_website file current = .error "No records to save") := by
  intro file current
  refine ⟨fun heq => ?_, fun hne hcur => ?_, fun hne hcur => ?_⟩
  · unfold sync_with_website
    dsimp only
    rw [if_neg (by rw [finset_diff_nonempty_iff_ne]; simp [heq])]
  · unfold sync_with_website
    dsimp only
    rw [if_pos ((finset_diff_nonempty_iff_ne _ _).mpr hne),
      if_neg (by simp [hcur])]
  · unfold sync_with_website
    dsimp only
    rw [if_pos ((finset_diff_nonempty_iff_ne _ _).mpr hne),
      if_pos (by simp [hcur])]

/-- Claim C7 witness: the characterization applied on concrete datasets —
identical sets are left alone, a genuinely new record triggers the overwrite
with counts 1/0. -/
theorem sync_with_website_characterization_witness :
    sync_with_website
      (some [{ registration_number := "TS000001", name := "Alice",
               father_name := "X", category := "BPharm" }])
      [{ registration_number := "TS000001", name := "Alice",
         father_name := "X", category := "BPharm" }] =
      .ok ({ status := "no_changes", total_records := 1,
             new_records := 0, removed_records := 0 },
           some [{ registration_number := "TS000001", name := "Alice",
                   father_name := "X", category := "BPharm" }]) ∧
    sync_with_website none
      [{ registration_number := "TS000001", name := "Alice",
         father_name := "X", category := "BPharm" }] =
      .ok ({ status := "updated", total_records := 1,
             new_records := 1, removed_records := 0 },
           some [{ registration_number := "TS000001", name := "Alice",
                   father_name := "X", category := "BPharm" }]) := by
  constructor
  · have h := (sync_with_website_characterization
      (some [{ registration_number := "TS000001", name := "Alice",
               father_name := "X", category := "BPharm" }])
      [{ registration_number := "TS000001", name := "Alice",
         father_name := "X", category := "BPharm" }]).1 rfl
    simpa using h
  · have h := (sync_with_website_characterization none
      [{ registration_number := "TS000001", name := "Alice",
         father_name := "X", category := "BPharm" }]).2.1 (by decide) (by decide)
    simpa using h

/-! ## Claim C10 -/

/-- Claim C10 counterexample: with only `min_delay ≤ max_delay` assumed the
band invariant fails — for the (degenerate) negative band
`min_delay = -10`, `max_delay = -19/2`, the freshly constructed state is in
band, but a successful `record_request` multiplies the delay by `9/10` and
clamps only from below, leaving `-9 > max_delay`. -/
theorem rate_limiter_claim_counterexample :
    ((-10 : Rat) ≤ -19 / 2) ∧
    RateLimiter.delay_within (-10) (-19 / 2) (RateLimiter.init (-10)) ∧
    ¬ RateLimiter.delay_within (-10) (-19 / 2)
        (RateLimiter.record_request (-10) (-19 / 2) (RateLimiter.init (-10))
          2 200 true) := by
  refine ⟨by norm_num, ⟨le_refl _, by norm_num [RateLimiter.init]⟩, ?_⟩
  intro h
  have h2 := h.2
  rw [show (RateLimiter.record_request (-10) (-19 / 2) (RateLimiter.init (-10))
      2 200 true).current_delay = max (-10) ((-10) * (9 / 10)) from rfl] at h2
  rw [show max (-10 : Rat) ((-10) * (9 / 10)) = -9 by
    rw [max_eq_right (by norm_num)]
    norm_num] at h2
  norm_num at h2

/-- Claim C10 (amended): assuming `0 ≤ min_delay ≤ max_delay` (the source
configures `3.0–8.0`), `current_delay` lies within
`[min_delay, max_delay]` after construction and after every mutating
operation: `record_request` (success, failure and HTTP-403/429 blocked
handling), the long break, the circuit-breaker timeout reset, and `reset`. -/
theorem rate_limiter_delay_bounds :
    ∀ (mn mx : Rat), 0 ≤ mn → mn ≤ mx →
      RateLimiter.delay_within mn mx (RateLimiter.init mn) ∧
      (∀ (s : RateLimiter.RLState) (rt : Rat) (code : Nat) (ok : Bool),
        RateLimiter.delay_within mn mx s →
        RateLimiter.delay_within mn mx
          (RateLimiter.record_request mn mx s rt code ok)) ∧
      (∀ s : RateLimiter.RLState,
        RateLimiter.delay_within mn mx s →
        RateLimiter.delay_within mn mx (RateLimiter.take_long_break mn s)) ∧
      (∀ (s : RateLimiter.RLState) (tmo : Bool),
        RateLimiter.delay_within mn mx s →
        RateLimiter.delay_within mn mx
          (RateLimiter.check_circuit_breaker mn s tmo)) ∧
      (∀ s : RateLimiter.RLState,
        RateLimiter.delay_within mn mx s →
        RateLimiter.delay_within mn mx (RateLimiter.reset mn s)) := by
  intro mn mx h0 hmn
  have hsucc : ∀ s : RateLimiter.RLState, RateLimiter.delay_within mn mx s →
      RateLimiter.delay_within mn mx (RateLimiter.on_success mn s) := by
    intro s hs
    refine ⟨le_max_left _ _, max_le hmn ?_⟩
    have hd0 : (0 : Rat) ≤ s.current_delay := le_trans h0 hs.1
    calc s.current_delay * (9 / 10) ≤ s.current_delay * 1 := by
          exact mul_le_mul_of_nonneg_left (by norm_num) hd0
      _ = s.current_delay := mul_one _
      _ ≤ mx := hs.2
  have hfail : ∀ s : RateLimiter.RLState, RateLimiter.delay_within mn mx s →
      RateLimiter.delay_within mn mx (RateLimiter.on_failure mx s) := by
    intro s hs
    have hd0 : (0 : Rat) ≤ s.current_delay := le_trans h0 hs.1
    have hband : mn ≤ min mx (s.current_delay * (3 / 2)) ∧
        min mx (s.current_delay * (3 / 2)) ≤ mx := by
      refine ⟨le_min hmn ?_, min_le_left _ _⟩
      calc mn ≤ s.current_delay := hs.1
        _ = s.current_delay * 1 := (mul_one _).symm
        _ ≤ s.current_delay * (3 / 2) := mul_le_mul_of_nonneg_left (by norm_num) hd0
    unfold RateLimiter.on_failure
    dsimp only
    split_ifs
    · exact hband
    · exact hband
  have hblock : ∀ s : RateLimiter.RLState, RateLimiter.delay_within mn mx s →
      RateLimiter.delay_within mn mx (RateLimiter.on_blocked mx s) := by
    intro s hs
    have hd0 : (0 : Rat) ≤ s.current_delay := le_trans h0 hs.1
    refine ⟨le_min hmn ?_, min_le_left _ _⟩
    calc mn ≤ s.current_delay := hs.1
      _ = s.current_delay * 1 := (mul_one _).symm
      _ ≤ s.current_delay * 2 := mul_le_mul_of_nonneg_left (by norm_num) hd0
  refine ⟨⟨le_refl mn, hmn⟩, ?_, fun s _ => ⟨le_refl mn, hmn⟩, ?_,
    fun s _ => ⟨le_refl mn, hmn⟩⟩
  · intro s rt code ok hs
    have hstats : (RateLimiter.recordStats s rt).current_delay = s.current_delay := by
      unfold RateLimiter.recordStats
      dsimp only
      split_ifs <;> rfl
    have hs1 : RateLimiter.delay_within mn mx (RateLimiter.recordStats s rt) :=
      ⟨by rw [hstats]; exact hs.1, by rw [hstats]; exact hs.2⟩
    have h2 : RateLimiter.delay_within mn mx
        (RateLimiter.recordOutcome mn mx (RateLimiter.recordStats s rt) ok) := by
      unfold RateLimiter.recordOutcome
      split_ifs
      · exact hsucc _ hs1
      · exact hfail _ hs1
    unfold RateLimiter.record_request
    dsimp only
    split_ifs
    · exact hblock _ h2
    · exact h2
  · intro s tmo hs
    unfold RateLimiter.check_circuit_breaker
    split_ifs
    · exact ⟨le_refl mn, hmn⟩
    · exact hs

/-- Claim C10 witness: the amended bounds applied with the configured band
`[3, 8]` to the fresh state and to a failed request recorded on it. -/
theorem rate_limiter_delay_bounds_witness :
    RateLimiter.delay_within 3 8 (RateLimiter.init 3) ∧
    RateLimiter.delay_within 3 8
      (RateLimiter.record_request 3 8 (RateLimiter.init 3) 2 500 false) := by
  have h := rate_limiter_delay_bounds 3 8 (by norm_num) (by norm_num)
  exact ⟨h.1, h.2.1 (RateLimiter.init 3) 2 500 false h.1⟩

/-! ## Claim C5 -/

/-- The rich engine's collected serial numbers, rephrased over
`firstColTexts`. -/
theorem extractor_serials_eq (table : List (List Cell)) :
    (dataRowsOf table).filterMap (fun r =>
      match (tdCells r).head? with
      | some c => if pyIsDigit c.text then some (digitsToNat c.text.data) else none
      | none => none) =
    (firstColTexts table).filterMap
      (fun v => if pyIsDigit v then some (digitsToNat v.data) else none) := by
  unfold firstColTexts
  rw [List.filterMap_filterMap]
  apply List.filterMap_congr
  intro r _
  cases (tdCells r).head? <;> rfl

/-- The simple engine's collected serial numbers, rephrased over
`firstColTexts`. -/
theorem scraper_serials_eq (table : List (List Cell)) :
    (dataRowsOf table).filterMap (fun r =>
      match (tdCells r).head? with
      | some c => pythonInt c.text
      | none => none) =
    (firstColTexts table).filterMap pythonInt := by
  unfold firstColTexts
  rw [List.filterMap_filterMap]
  apply List.filterMap_congr
  intro r _
  cases (tdCells r).head? <;> rfl

/-- On a list whose members all pass `p`, the guarded `filterMap` is a plain
`map`. -/
theorem filterMap_guard_eq_map {α β : Type} (p : α → Bool) (f : α → β)
    (l : List α) (h : ∀ v ∈ l, p v = true) :
    l.filterMap (fun v => if p v then some (f v) else none) = l.map f := by
  induction l with
  | nil => rfl
  | cons a t ih =>
      rw [List.filterMap_cons, if_pos (h a (by simp)), List.map_cons,
        ih (fun v hv => h v (by simp [hv]))]

/-- Claim C5 counterexample: first-column values `["1", "x"]` are not all
numeric, so the claim predicts the row count 2; both engines instead return
the distinct count of the numeric values, 1. -/
theorem total_count_claim_counterexample :
    PharmacistExtractor.extract_total_count
      [[{ isTd := false, text := "S.No" }],
       [{ isTd := true, text := "1" }], [{ isTd := true, text := "x" }]] =
      .ok 1 ∧
    Scraper.get_total_count
      [[{ isTd := false, text := "S.No" }],
       [{ isTd := true, text := "1" }], [{ isTd := true, text := "x" }]] = 1 ∧
    (dataRowsOf
      [[{ isTd := false, text := "S.No" }],
       [{ isTd := true, text := "1" }], [{ isTd := true, text := "x" }]]).length =
      2 := by
  decide

/-- Every data row contributes a first-column value, so a table with data
rows has a non-empty value list. -/
theorem firstColTexts_ne_nil (table : List (List Cell))
    (hne : dataRowsOf table ≠ []) : firstColTexts table ≠ [] := by
  cases hd : dataRowsOf table with
  | nil => exact absurd hd hne
  | cons r rs =>
      have hrmem : r ∈ dataRowsOf table := by
        rw [hd]
        simp
      have hr : ¬(tdCells r).isEmpty = true := by
        have := (List.mem_filter.mp hrmem).2
        simpa using this
      unfold firstColTexts
      rw [hd]
      cases hc : tdCells r with
      | nil => rw [hc] at hr; simp at hr
      | cons c cs =>
          rw [List.filterMap_cons]
          simp [hc]

/-- Claim C5 (amended): both total-count operations collect the first-column
value of every data row; when ANY of those values is numeric (rather than
all, as claimed) the result is the number of distinct numeric values — the
rich engine reading `str.isdigit` values, the simple engine `int(...)`
values — and only when none is numeric is the data-row count returned.  When
all values are numeric the result is the distinct count of all of them, as
the claim states. -/
theorem total_count_characterization :
    (∀ table : List (List Cell), dataRowsOf table ≠ [] →
      ((∃ v ∈ firstColTexts table, pyIsDigit v = true) →
        PharmacistExtractor.extract_total_count table =
          .ok (((firstColTexts table).filterMap
            (fun v => if pyIsDigit v then some (digitsToNat v.data)
                      else none)).dedup.length)) ∧
      ((∀ v ∈ firstColTexts table, pyIsDigit v = false) →
        PharmacistExtractor.extract_total_count table =
          .ok (dataRowsOf table).length) ∧
      ((∀ v ∈ firstColTexts table, pyIsDigit v = true) →
        PharmacistExtractor.extract_total_count table =
          .ok (((firstColTexts table).map
            (fun v => digitsToNat v.data)).dedup.length))) ∧
    (∀ table : List (List Cell),
      ((∃ v ∈ firstColTexts table, (pythonInt v).isSome) →
        Scraper.get_total_count table =
          ((firstColTexts table).filterMap pythonInt).dedup.length) ∧
      ((∀ v ∈ firstColTexts table, pythonInt v = none) →
        Scraper.get_total_count table = (dataRowsOf table).length)) := by
  have hfilt : ∀ table : List (List Cell),
      table.filter (fun r => !(tdCells r).isEmpty) = dataRowsOf table :=
    fun _ => rfl
  constructor
  · intro table hne
    have hnotmt : ¬(table.filter (fun r => !(tdCells r).isEmpty)).isEmpty = true := by
      rw [hfilt]
      simpa using hne
    have hcase1 : (∃ v ∈ firstColTexts table, pyIsDigit v = true) →
        PharmacistExtractor.extract_total_count table =
          .ok (((firstColTexts table).filterMap
            (fun v => if pyIsDigit v then some (digitsToNat v.data)
                      else none)).dedup.length) := by
      intro hex
      unfold PharmacistExtractor.extract_total_count
      dsimp only
      rw [if_neg hnotmt, hfilt, extractor_serials_eq table]
      obtain ⟨v, hv, hdig⟩ := hex
      have hmem : digitsToNat v.data ∈ (firstColTexts table).filterMap
          (fun v => if pyIsDigit v then some (digitsToNat v.data) else none) :=
        List.mem_filterMap.mpr ⟨v, hv, by rw [if_pos hdig]⟩
      rw [if_pos (by simpa using List.ne_nil_of_mem hmem)]
    refine ⟨hcase1, fun hnone => ?_, fun hall => ?_⟩
    · unfold PharmacistExtractor.extract_total_count
      dsimp only
      rw [if_neg hnotmt, hfilt, extractor_serials_eq table]
      have hnil : (firstColTexts table).filterMap
          (fun v => if pyIsDigit v then some (digitsToNat v.data) else none) = [] :=
        List.filterMap_eq_nil_iff.mpr
          (fun v hv => by rw [if_neg (by simp [hnone v hv])])
      rw [hnil]
      simp [dataRowsOf]
    · have hvne := firstColTexts_ne_nil table hne
      rcases List.exists_mem_of_ne_nil _ hvne with ⟨v, hv⟩
      rw [hcase1 ⟨v, hv, hall v hv⟩,
        filterMap_guard_eq_map pyIsDigit (fun v => digitsToNat v.data) _ hall]
  · intro table
    have hcase1 : (∃ v ∈ firstColTexts table, (pythonInt v).isSome) →
        Scraper.get_total_count table =
          ((firstColTexts table).filterMap pythonInt).dedup.length := by
      intro hex
      unfold Scraper.get_total_count
      dsimp only
      rw [hfilt, scraper_serials_eq table]
      obtain ⟨v, hv, hsome⟩ := hex
      obtain ⟨n, hn⟩ := Option.isSome_iff_exists.mp hsome
      have hmem : n ∈ (firstColTexts table).filterMap pythonInt :=
        List.mem_filterMap.mpr ⟨v, hv, hn⟩
      rw [if_pos (by simpa using List.ne_nil_of_mem hmem)]
    refine ⟨hcase1, fun hnone => ?_⟩
    unfold Scraper.get_total_count
    dsimp only
    rw [hfilt, scraper_serials_eq table]
    have hnil : (firstColTexts table).filterMap pythonInt = [] :=
      List.filterMap_eq_nil_iff.mpr hnone
    rw [hnil]
    simp [dataRowsOf]

/-- Claim C5 witness: the characterization applied to a table with
first-column values `[1, 1, 2, 3]` — all numeric, total 3 (distinct), not 4
(row count) — and to an all-text table giving the row count. -/
theorem total_count_characterization_witness :
    PharmacistExtractor.extract_total_count
      [[{ isTd := true, text := "1" }], [{ isTd := true, text := "1" }],
       [{ isTd := true, text := "2" }], [{ isTd := true, text := "3" }]] =
      .ok 3 ∧
    Scraper.get_total_count
      [[{ isTd := true, text := "a" }], [{ isTd := true, text := "b" }]] = 2 := by
  constructor
  · have h := (total_count_characterization.1
      [[{ isTd := true, text := "1" }], [{ isTd := true, text := "1" }],
       [{ isTd := true, text := "2" }], [{ isTd := true, text := "3" }]]
      (by decide)).2.2 (by decide)
    rw [h]
    decide
  · have h := (total_count_characterization.2
      [[{ isTd := true, text := "a" }], [{ isTd := true, text := "b" }]]).2
      (by decide)
    rw [h]
    decide

/-! ## Claim C4 -/

/-- Claim C4 counterexample: a body without any `"no records found"`
substring but also without tables makes both engines return `none`, and a
body containing the upper-cased `"NO RECORDS FOUND"` (a case-insensitive
match) with a parsable table makes the simple engine return a record rather
than the claimed not-found `none` — the sentinel comparison is
case-sensitive and `none` is not exclusive to it. -/
theorem detail_not_found_claim_counterexample :
    hasSubCI "hello" "no records found" = false ∧
    Scraper.extract_detailed_info "TS000001"
      { text := "hello", tables := [] } = none ∧
    PharmacistExtractor.extract_detailed_info "TS000001"
      { text := "hello", tables := [] } = .ok none ∧
    hasSubCI "NO RECORDS FOUND" "no records found" = true ∧
    (Scraper.extract_detailed_info "TS000001"
      { text := "NO RECORDS FOUND",
        tables := [[[{ isTd := false, text := "Name" },
                     { isTd := false, text := "Father Name" },
                     { isTd := false, text := "Category" }],
                    [{ isTd := true, text := "A" },
                     { isTd := true, text := "B" },
                     { isTd := true, text := "C" }]]] }).isSome = true := by
  decide

/-- Claim C4 (amended): the rich engine returns the not-found `none` exactly
when the body contains one of the two exact case-sensitive sentinels
`"No Records Found"`/`"No records found"` or no tables parse; the simple
engine returns `none` exactly when the body contains the single exact
sentinel `"No Records Found"`, no tables parse, or the main table fails to
assign name, father name and category.  Other casings of the sentinel are
not treated as not-found. -/
theorem detail_not_found_characterization :
    (∀ (reg : String) (body : Body),
      PharmacistExtractor.extract_detailed_info reg body = .ok none ↔
        (hasSub body.text "No Records Found" = true ∨
         hasSub body.text "No records found" = true ∨
         body.tables = [])) ∧
    (∀ (reg : String) (body : Body),
      Scraper.extract_detailed_info reg body = none ↔
        (hasSub body.text "No Records Found" = true ∨
         body.tables = [] ∨
         (Scraper.mainData body).name = none ∨
         (Scraper.mainData body).father_name = none ∨
         (Scraper.mainData body).category = none)) := by
  constructor
  · intro reg body
    unfold PharmacistExtractor.extract_detailed_info
    by_cases hs : (hasSub body.text "No Records Found" ||
        hasSub body.text "No records found") = true
    · rw [if_pos hs]
      simp only [Bool.or_eq_true] at hs
      simp [hs]
      tauto
    · rw [if_neg hs]
      simp only [Bool.or_eq_true, not_or, Bool.not_eq_true] at hs
      unfold PharmacistExtractor.parse_detailed_response
      by_cases ht : body.tables.isEmpty = true
      · rw [if_pos ht]
        simp only [List.isEmpty_iff] at ht
        simp [hs, ht]
      · rw [if_neg ht]
        simp only [List.isEmpty_iff] at ht
        dsimp only
        cases hc : clean_registration_number reg with
        | error e => simp [hc, hs.1, hs.2, ht]
        | ok r => simp [hc, hs.1, hs.2, ht]
  · intro reg body
    unfold Scraper.extract_detailed_info
    by_cases hs : hasSub body.text "No Records Found" = true
    · rw [if_pos hs]
      simp [hs]
    · rw [if_neg hs]
      rw [Bool.not_eq_true] at hs
      by_cases ht : body.tables.isEmpty = true
      · rw [if_pos ht]
        simp only [List.isEmpty_iff] at ht
        simp [hs, ht]
      · rw [if_neg ht]
        simp only [List.isEmpty_iff] at ht
        dsimp only
        cases hn : (Scraper.mainData body).name with
        | none => simp [hn, hs, ht]
        | some n =>
            cases hf : (Scraper.mainData body).father_name with
            | none => simp [hn, hf, hs, ht]
            | some f =>
                cases hcat : (Scraper.mainData body).category with
                | none => simp [hn, hf, hcat, hs, ht]
                | some c => simp [hn, hf, hcat, hs, ht]

/-! ## Claim C2 -/

/-- On all-valid input the validator's clean list is first-seen
deduplication. -/
theorem validateRecordsAux_all_valid (l : List PharmacistRecord) :
    ∀ seen : List String, (∀ r ∈ l, validate r = []) →
      (validateRecordsAux seen l).1 = dedupFirstAux seen l := by
  induction l with
  | nil => intro seen _; rfl
  | cons r rs ih =>
      intro seen h
      have hv : validate r = [] := h r (by simp)
      have htail : ∀ x ∈ rs, validate x = [] := fun x hx => h x (by simp [hx])
      unfold validateRecordsAux dedupFirstAux
      rw [if_neg (by simp [hv])]
      by_cases hmem : seen.contains r.registration_number = true
      · rw [if_pos hmem, if_pos hmem]
        exact ih seen htail
      · rw [if_neg hmem, if_neg hmem]
        dsimp only
        rw [ih _ htail]

/-- `List.contains` on a cons cell. -/
theorem contains_cons_eq (a k : String) (s : List String) :
    (a :: s).contains k = (k == a || s.contains k) := by
  cases h : k == a <;> simp [List.contains, List.elem, h]

/-- Filtering first-seen deduplication by one registration number keeps the
first occurrence when the number is unseen, nothing when already seen. -/
theorem dedupFirstAux_filter (k : String) (l : List PharmacistRecord) :
    ∀ seen : List String,
      (dedupFirstAux seen l).filter (fun r => r.registration_number == k) =
        if seen.contains k then []
        else (l.filter (fun r => r.registration_number == k)).take 1 := by
  induction l with
  | nil =>
      intro seen
      cases h : seen.contains k <;> simp [dedupFirstAux]
  | cons r rs ih =>
      intro seen
      unfold dedupFirstAux
      cases hrk : r.registration_number == k with
      | true =>
          have hk : r.registration_number = k := beq_iff_eq.mp hrk
          rw [hk]
          by_cases hmem : seen.contains k = true
          · rw [if_pos hmem, if_pos hmem, ih seen, if_pos hmem]
          · rw [if_neg hmem, if_neg hmem]
            rw [List.filter_cons, if_pos hrk, List.filter_cons, if_pos hrk]
            rw [ih (k :: seen), contains_cons_eq,
              show (k == k) = true from beq_iff_eq.mpr rfl, Bool.true_or, if_pos rfl]
            rfl
      | false =>
          have hne : ¬((r.registration_number == k) = true) := by simp [hrk]
          by_cases hmem : seen.contains r.registration_number = true
          · rw [if_pos hmem, ih seen]
            rw [List.filter_cons, if_neg hne]
          · rw [if_neg hmem]
            rw [List.filter_cons, if_neg hne, ih (r.registration_number :: seen),
              contains_cons_eq]
            rw [show (k == r.registration_number) = false from by
              cases hc : k == r.registration_number
              · rfl
              · exact absurd (beq_iff_eq.mpr (beq_iff_eq.mp hc).symm) hne]
            rw [Bool.false_or, List.filter_cons, if_neg hne]

/-- Dictionary values keyed away from `k` contribute nothing to the
`k`-filter. -/
theorem values_filter_nil (k : String) (d : List (String × PharmacistRecord))
    (hinv : ∀ p ∈ d, p.2.registration_number = p.1)
    (hk : ∀ p ∈ d, p.1 ≠ k) :
    (d.map (fun p => p.2)).filter (fun x => x.registration_number == k) = [] := by
  induction d with
  | nil => rfl
  | cons p d ih =>
      rw [List.map_cons, List.filter_cons,
        if_neg (by simp [hinv p (by simp), hk p (by simp)])]
      exact ih (fun q hq => hinv q (by simp [hq])) (fun q hq => hk q (by simp [hq]))

/-- With value-matches-key and no duplicate keys, the `k`-filter of the
dictionary values is the found entry's value (or nothing). -/
theorem values_filter_find (k : String) (d : List (String × PharmacistRecord))
    (hinv : ∀ p ∈ d, p.2.registration_number = p.1)
    (hnd : (d.map (fun p => p.1)).Nodup) :
    (d.map (fun p => p.2)).filter (fun x => x.registration_number == k) =
      match d.find? (fun p => p.1 == k) with
      | some p => [p.2]
      | none => [] := by
  induction d with
  | nil => rfl
  | cons p d ih =>
      have hpv : p.2.registration_number = p.1 := hinv p (by simp)
      have hinvt : ∀ q ∈ d, q.2.registration_number = q.1 :=
        fun q hq => hinv q (by simp [hq])
      have hndt : (d.map (fun q => q.1)).Nodup := (List.nodup_cons.mp hnd).2
      cases hpk : p.1 == k with
      | true =>
          have hp1 : p.1 = k := beq_iff_eq.mp hpk
          have hnot : p.1 ∉ d.map (fun q => q.1) := (List.nodup_cons.mp hnd).1
          rw [List.map_cons, List.filter_cons,
            if_pos (by rw [hpv, hpk])]
          rw [values_filter_nil k d hinvt (fun q hq hqk => hnot (by
            rw [hp1, ← hqk]
            exact List.mem_map.mpr ⟨q, hq, rfl⟩))]
          rw [List.find?_cons, hpk]
      | false =>
          rw [List.map_cons, List.filter_cons,
            if_neg (by rw [hpv]; simp [hpk])]
          rw [ih hinvt hndt, List.find?_cons, hpk]

/-- In-place update: when some entry carries key `k`, the updated dictionary
finds `(k, v)`. -/
theorem find_map_upd_self (k : String) (v : PharmacistRecord) :
    ∀ d : List (String × PharmacistRecord),
      d.any (fun p => p.1 = k) = true →
      (d.map (fun p => if p.1 = k then (k, v) else p)).find?
        (fun p => p.1 == k) = some (k, v) := by
  intro d
  induction d with
  | nil => intro h; simp at h
  | cons p d ih =>
      intro h
      rw [List.map_cons]
      by_cases hpk : p.1 = k
      · rw [if_pos hpk, List.find?_cons,
          show ((k, v).1 == k) = true from beq_iff_eq.mpr rfl]
      · rw [if_neg hpk, List.find?_cons,
          show (p.1 == k) = false from by
            cases hc : p.1 == k
            · rfl
            · exact absurd (beq_iff_eq.mp hc) hpk]
        apply ih
        rcases List.any_eq_true.mp h with ⟨q, hq, hqk⟩
        rcases List.mem_cons.mp hq with hq1 | hq2
        · exact absurd (by rw [← hq1]; exact of_decide_eq_true hqk) hpk
        · exact List.any_eq_true.mpr ⟨q, hq2, hqk⟩

/-- Appending a fresh `(k, v)` entry to a dictionary without key `k` makes
`find?` return it. -/
theorem find_append_self (k : String) (v : PharmacistRecord) :
    ∀ d : List (String × PharmacistRecord),
      d.any (fun p => p.1 = k) = false →
      (d ++ [(k, v)]).find? (fun p => p.1 == k) = some (k, v) := by
  intro d
  induction d with
  | nil =>
      intro _
      rw [List.nil_append, List.find?_cons,
        show ((k, v).1 == k) = true from beq_iff_eq.mpr rfl]
  | cons p d ih =>
      intro h
      have hpk : ¬p.1 = k := by
        intro hc
        have hany : (p :: d).any (fun q => q.1 = k) = true :=
          List.any_eq_true.mpr ⟨p, by simp, by simp [hc]⟩
        rw [h] at hany
        exact Bool.false_ne_true hany
      rw [List.cons_append, List.find?_cons,
        show (p.1 == k) = false from by
          cases hc : p.1 == k
          · rfl
          · exact absurd (beq_iff_eq.mp hc) hpk]
      apply ih
      cases hc : d.any (fun p => p.1 = k)
      · rfl
      · rcases List.any_eq_true.mp hc with ⟨q, hq, hqk⟩
        have hany : (p :: d).any (fun q => q.1 = k) = true :=
          List.any_eq_true.mpr ⟨q, List.mem_cons.mpr (Or.inr hq), hqk⟩
        rw [h] at hany
        exact absurd hany Bool.false_ne_true

/-- Inserting under key `k` makes the dictionary find `(k, v)`. -/
theorem dictInsert_find_self (k : String) (v : PharmacistRecord)
    (d : List (String × PharmacistRecord)) :
    (dictInsert d k v).find? (fun p => p.1 == k) = some (k, v) := by
  unfold dictInsert
  by_cases hex : d.any (fun p => p.1 = k) = true
  · rw [if_pos hex]
    exact find_map_upd_self k v d hex
  · rw [if_neg hex]
    apply find_append_self
    cases hc : d.any (fun p => p.1 = k)
    · rfl
    · exact absurd hc hex

/-- In-place update under a key other than `k` leaves the `k`-lookup
unchanged. -/
theorem find_map_upd_other (k kr : String) (hne : kr ≠ k)
    (v : PharmacistRecord) :
    ∀ d : List (String × PharmacistRecord),
      (d.map (fun p => if p.1 = kr then (kr, v) else p)).find?
        (fun p => p.1 == k) = d.find? (fun p => p.1 == k) := by
  intro d
  induction d with
  | nil => rfl
  | cons p d ih =>
      rw [List.map_cons]
      by_cases hpk : p.1 = kr
      · rw [if_pos hpk, List.find?_cons, List.find?_cons,
          show ((kr, v).1 == k) = false from by
            cases hc : (kr : String) == k
            · rfl
            · exact absurd (beq_iff_eq.mp hc) hne,
          show (p.1 == k) = false from by
            cases hc : p.1 == k
            · rfl
            · exact absurd (by rw [← hpk]; exact beq_iff_eq.mp hc) hne]
        exact ih
      · rw [if_neg hpk, List.find?_cons, List.find?_cons]
        cases hc : p.1 == k
        · exact ih
        · rfl

/-- Appending an entry under a key other than `k` leaves the `k`-lookup
unchanged. -/
theorem find_append_other (k kr : String) (hne : kr ≠ k)
    (v : PharmacistRecord) :
    ∀ d : List (String × PharmacistRecord),
      (d ++ [(kr, v)]).find? (fun p => p.1 == k) =
        d.find? (fun p => p.1 == k) := by
  intro d
  induction d with
  | nil =>
      rw [List.nil_append, List.find?_cons,
        show ((kr, v).1 == k) = false from by
          cases hc : (kr : String) == k
          · rfl
          · exact absurd (beq_iff_eq.mp hc) hne]
  | cons p d ih =>
      rw [List.cons_append, List.find?_cons, List.find?_cons]
      cases hc : p.1 == k
      · exact ih
      · rfl

/-- Inserting under a key other than `k` leaves the `k`-lookup unchanged. -/
theorem dictInsert_find_other (k kr : String) (hne : kr ≠ k)
    (v : PharmacistRecord) (d : List (String × PharmacistRecord)) :
    (dictInsert d kr v).find? (fun p => p.1 == k) =
      d.find? (fun p => p.1 == k) := by
  unfold dictInsert
  split_ifs with hex
  · exact find_map_upd_other k kr hne v d
  · exact find_append_other k kr hne v d

/-- `dictInsert` preserves the value-matches-key invariant when the inserted
value carries the inserted key. -/
theorem dictInsert_inv (d : List (String × PharmacistRecord))
    (r : PharmacistRecord)
    (hinv : ∀ p ∈ d, p.2.registration_number = p.1) :
    ∀ p ∈ dictInsert d r.registration_number r,
      p.2.registration_number = p.1 := by
  intro p hp
  unfold dictInsert at hp
  split_ifs at hp with hex
  · rcases List.mem_map.mp hp with ⟨q, hq, hpq⟩
    by_cases hqk : q.1 = r.registration_number
    · rw [if_pos hqk] at hpq
      rw [← hpq]
    · rw [if_neg hqk] at hpq
      rw [← hpq]
      exact hinv q hq
  · rcases List.mem_append.mp hp with hq | hq
    · exact hinv p hq
    · have := List.mem_singleton.mp hq
      rw [this]

/-- `dictInsert` keeps the key list unchanged on update and appends the new
key otherwise. -/
theorem dictInsert_keys (d : List (String × PharmacistRecord)) (k : String)
    (v : PharmacistRecord) :
    (dictInsert d k v).map (fun p => p.1) =
      if d.any (fun p => p.1 = k) then d.map (fun p => p.1)
      else d.map (fun p => p.1) ++ [k] := by
  unfold dictInsert
  split_ifs with hex
  · rw [List.map_map]
    apply List.map_congr_left
    intro p _
    by_cases hpk : p.1 = k
    · simp [hpk]
    · simp [hpk]
  · simp

/-- `dictInsert` preserves key distinctness. -/
theorem dictInsert_keys_nodup (d : List (String × PharmacistRecord))
    (k : String) (v : PharmacistRecord)
    (hnd : (d.map (fun p => p.1)).Nodup) :
    ((dictInsert d k v).map (fun p => p.1)).Nodup := by
  rw [dictInsert_keys]
  split_ifs with hex
  · exact hnd
  · rw [List.nodup_append]
    refine ⟨hnd, List.nodup_singleton k, ?_⟩
    intro a ha hb
    rw [List.mem_singleton.mp hb] at ha
    rcases List.mem_map.mp ha with ⟨p, hp, hpk⟩
    exact hex (List.any_eq_true.mpr ⟨p, hp, decide_eq_true hpk⟩)

/-- `take 1` as the optional head. -/
theorem take_one_eq_head (l : List PharmacistRecord) :
    l.take 1 = match l.head? with | some a => [a] | none => [] := by
  cases l <;> rfl

/-- The manager's dictionary fold: filtering the resulting values by one
registration number yields the LAST occurrence from the processed list, or
whatever the initial dictionary held when the number never occurs. -/
theorem managerFold_filter (k : String) (l : List PharmacistRecord) :
    ∀ d : List (String × PharmacistRecord),
      (∀ p ∈ d, p.2.registration_number = p.1) →
      (d.map (fun p => p.1)).Nodup →
      ((l.foldl (fun acc r => dictInsert acc r.registration_number r) d).map
          (fun p => p.2)).filter (fun x => x.registration_number == k) =
        match (l.filter (fun x => x.registration_number == k)).getLast? with
        | some r => [r]
        | none =>
            (d.map (fun p => p.2)).filter (fun x => x.registration_number == k) := by
  induction l with
  | nil => intro d _ _; rfl
  | cons r rs ih =>
      intro d hinv hnd
      rw [List.foldl_cons]
      have hinv2 := dictInsert_inv d r hinv
      have hnd2 := dictInsert_keys_nodup d r.registration_number r hnd
      rw [ih (dictInsert d r.registration_number r) hinv2 hnd2]
      cases hrk : r.registration_number == k with
      | true =>
          have hk : r.registration_number = k := beq_iff_eq.mp hrk
          rw [List.filter_cons, if_pos hrk]
          cases hfil : rs.filter (fun x => x.registration_number == k) with
          | nil =>
              rw [show ([] : List PharmacistRecord).getLast? = none from rfl,
                show [r].getLast? = some r from rfl]
              dsimp only
              rw [values_filter_find k _ hinv2 hnd2, hk, dictInsert_find_self]
          | cons x xs =>
              rw [List.getLast?_cons_cons]
              cases hgl : (x :: xs).getLast? with
              | none =>
                  exact absurd (List.getLast?_eq_none_iff.mp hgl)
                    (List.cons_ne_nil x xs)
              | some a => rfl
      | false =>
          rw [List.filter_cons, if_neg (by simp [hrk])]
          cases hfil : rs.filter (fun x => x.registration_number == k) with
          | nil =>
              rw [show ([] : List PharmacistRecord).getLast? = none from rfl]
              dsimp only
              rw [values_filter_find k _ hinv2 hnd2,
                dictInsert_find_other k r.registration_number
                  (fun hc => by simp [hc] at hrk) r d,
                values_filter_find k d hinv hnd]
          | cons x xs => rfl

/-- Claim C2 counterexample: when the first of two records sharing a
registration number fails `validate()` (empty name here), the Daily
Automated Updater's validator keeps the LATER occurrence, not the first as
claimed — the first is excluded as invalid before duplicate tracking. -/
theorem dedup_directions_claim_counterexample :
    (validate_records
      [{ registration_number := "TS000001", name := "", father_name := "X",
         category := "BPharm" },
       { registration_number := "TS000001", name := "Bob", father_name := "Y",
         category := "BPharm" }]).1.filter
        (fun r => r.registration_number == "TS000001") =
      [{ registration_number := "TS000001", name := "Bob", father_name := "Y",
         category := "BPharm" }] ∧
    ([({ registration_number := "TS000001", name := "", father_name := "X",
         category := "BPharm" } : PharmacistRecord),
      { registration_number := "TS000001", name := "Bob", father_name := "Y",
        category := "BPharm" }].filter
        (fun r => r.registration_number == "TS000001")).take 1 =
      [{ registration_number := "TS000001", name := "", father_name := "X",
         category := "BPharm" }] ∧
    ({ registration_number := "TS000001", name := "", father_name := "X",
       category := "BPharm" } : PharmacistRecord) ≠
      { registration_number := "TS000001", name := "Bob", father_name := "Y",
        category := "BPharm" } := by
  refine ⟨?_, by decide, by decide⟩
  decide

/-- Claim C2 (amended): for records that individually pass `validate()`, two
or more sharing a registration number are resolved to the FIRST occurrence
by the Daily Automated Updater's validator and to the LAST occurrence by the
Manager's dictionary deduplication; when an earlier duplicate fails
validation the validator instead keeps the first VALID occurrence (see the
counterexample). -/
theorem dedup_directions :
    ∀ (l : List PharmacistRecord) (k : String),
      2 ≤ (l.filter (fun r => r.registration_number == k)).length →
      (∀ r ∈ l, validate r = []) →
      (validate_records l).1.filter (fun r => r.registration_number == k) =
        (l.filter (fun r => r.registration_number == k)).take 1 ∧
      (managerDedup l).filter (fun r => r.registration_number == k) =
        (l.filter (fun r => r.registration_number == k)).reverse.take 1 := by
  intro l k hdup hval
  constructor
  · rw [show (validate_records l).1 = (validateRecordsAux [] l).1 from rfl,
      validateRecordsAux_all_valid l [] hval, dedupFirstAux_filter k l [],
      if_neg (by simp)]
  · unfold managerDedup
    rw [managerFold_filter k l [] (fun p hp => absurd hp (List.not_mem_nil p))
      (by simp)]
    rw [take_one_eq_head, List.head?_reverse]
    cases hfil : (l.filter (fun x => x.registration_number == k)).getLast? with
    | none =>
        rw [List.getLast?_eq_none_iff] at hfil
        rw [hfil] at hdup
        simp at hdup
    | some x => rfl

/-- Claim C2 witness: two valid records sharing `"TS000001"` — the validator
keeps Alice (first), the manager keeps Bob (last). -/
theorem dedup_directions_witness :
    (validate_records
      [{ registration_number := "TS000001", name := "Alice", father_name := "X",
         category := "BPharm" },
       { registration_number := "TS000001", name := "Bob", father_name := "Y",
         category := "BPharm" }]).1.filter
        (fun r => r.registration_number == "TS000001") =
      [{ registration_number := "TS000001", name := "Alice", father_name := "X",
         category := "BPharm" }] ∧
    (managerDedup
      [{ registration_number := "TS000001", name := "Alice", father_name := "X",
         category := "BPharm" },
       { registration_number := "TS000001", name := "Bob", father_name := "Y",
         category := "BPharm" }]).filter
        (fun r => r.registration_number == "TS000001") =
      [{ registration_number := "TS000001", name := "Bob", father_name := "Y",
         category := "BPharm" }] := by
  have h := dedup_directions
    [{ registration_number := "TS000001", name := "Alice", father_name := "X",
       category := "BPharm" },
     { registration_number := "TS000001", name := "Bob", father_name := "Y",
       category := "BPharm" }] "TS000001" (by decide) (by decide)
  constructor
  · rw [h.1]
    decide
  · rw [h.2]
    decide

/-! ## Claim C9 -/

/-- Equality tests on characters commute. -/
theorem char_beq_comm (a b : Char) : (a == b) = (b == a) := by
  cases h : a == b with
  | true =>
      exact (beq_iff_eq.mpr (beq_iff_eq.mp h).symm).symm
  | false =>
      cases h2 : b == a with
      | true =>
          exact absurd (beq_iff_eq.mpr (beq_iff_eq.mp h2).symm)
            (by simp [h])
      | false => rfl

/-- Substring occurrence is prefix occurrence at some drop offset. -/
theorem containsSeq_iff_drop (sub : List Char) (l : List Char) :
    containsSeq sub l = true ↔ ∃ k, seqAt sub (l.drop k) = true := by
  induction l with
  | nil =>
      constructor
      · intro h
        exact ⟨0, h⟩
      · rintro ⟨k, hk⟩
        rw [List.drop_nil] at hk
        exact hk
  | cons c t ih =>
      constructor
      · intro h
        rcases Bool.or_eq_true_iff.mp h with h1 | h2
        · exact ⟨0, h1⟩
        · rcases ih.mp h2 with ⟨k, hk⟩
          exact ⟨k + 1, hk⟩
      · rintro ⟨k, hk⟩
        cases k with
        | zero => exact Bool.or_eq_true_iff.mpr (Or.inl hk)
        | succ k => exact Bool.or_eq_true_iff.mpr (Or.inr (ih.mpr ⟨k, hk⟩))

/-- A trailing `%` matches any remaining subject. -/
theorem likeM_percent_nil (t : List Char) : Api.likeM ['%'] t = true := by
  unfold Api.likeM
  rw [if_pos rfl]
  apply List.any_eq_true.mpr
  refine ⟨t.length, List.mem_range.mpr (by omega), ?_⟩
  rw [List.drop_length]
  rfl

/-- A wildcard-free pattern followed by `%` matches exactly the subjects it
case-folds onto as a prefix. -/
theorem likeM_lit_percent (q : List Char)
    (hw : ∀ c ∈ q, c ≠ '%' ∧ c ≠ '_') :
    ∀ t : List Char,
      Api.likeM (q ++ ['%']) t = seqAt (q.map asciiLowerChar) (t.map asciiLowerChar) := by
  induction q with
  | nil =>
      intro t
      rw [List.nil_append, likeM_percent_nil]
      rfl
  | cons c q ih =>
      intro t
      have hc := hw c (by simp)
      rw [List.cons_append]
      unfold Api.likeM
      rw [if_neg hc.1, if_neg hc.2]
      cases t with
      | nil => rfl
      | cons a t2 =>
          show ((asciiLowerChar a == asciiLowerChar c) &&
              Api.likeM (q ++ ['%']) t2) =
            ((asciiLowerChar c == asciiLowerChar a) &&
              seqAt (q.map asciiLowerChar) (t2.map asciiLowerChar))
          rw [ih (fun x hx => hw x (by simp [hx])) t2, char_beq_comm]

/-- The full `%pattern%` match is case-folded substring containment, for
wildcard-free patterns. -/
theorem likeM_wrap_iff (q s : List Char)
    (hw : ∀ c ∈ q, c ≠ '%' ∧ c ≠ '_') :
    Api.likeM ('%' :: (q ++ ['%'])) s = true ↔
      containsSeq (q.map asciiLowerChar) (s.map asciiLowerChar) = true := by
  rw [containsSeq_iff_drop]
  unfold Api.likeM
  rw [if_pos rfl]
  constructor
  · intro h
    rcases List.any_eq_true.mp h with ⟨k, _, hk⟩
    rw [likeM_lit_percent q hw] at hk
    exact ⟨k, by rw [← List.map_drop]; exact hk⟩
  · rintro ⟨k, hk⟩
    apply List.any_eq_true.mpr
    by_cases hks : k ≤ s.length
    · refine ⟨k, List.mem_range.mpr (by omega), ?_⟩
      rw [likeM_lit_percent q hw, List.map_drop]
      exact hk
    · refine ⟨s.length, List.mem_range.mpr (by omega), ?_⟩
      rw [likeM_lit_percent q hw, List.map_drop,
        show s.length = (List.map asciiLowerChar s).length from
          (List.length_map _ _).symm,
        List.drop_length]
      rw [List.drop_eq_nil_of_le (by rw [List.length_map]; omega)] at hk
      exact hk

/-- `LIKE "%q%"` is ASCII-case-insensitive substring search when `q` has no
wildcards. -/
theorem sqlite_like_wrap (q s : String) (hw : Api.noWildcards q = true) :
    Api.sqlite_like ("%" ++ q ++ "%") s = hasSubCI s q := by
  have hdata : ("%" ++ q ++ "%").data = '%' :: (q.data ++ ['%']) := by
    rw [String.data_append, String.data_append]
    rfl
  have hw2 : ∀ c ∈ q.data, c ≠ '%' ∧ c ≠ '_' := by
    intro c hc
    have := List.all_eq_true.mp hw c hc
    simp only [Bool.and_eq_true, decide_eq_true_eq] at this
    exact this
  have hiff := likeM_wrap_iff q.data s.data hw2
  have hgoal : Api.sqlite_like ("%" ++ q ++ "%") s = true ↔ hasSubCI s q = true := by
    unfold Api.sqlite_like
    rw [hdata]
    exact hiff
  cases h1 : Api.sqlite_like ("%" ++ q ++ "%") s with
  | true => exact (hgoal.mp h1).symm
  | false =>
      cases h2 : hasSubCI s q with
      | true => exact absurd (hgoal.mpr h2) (by simp [h1])
      | false => rfl

/-- Claim C9 counterexample: `int(request.args.get("limit", 100))` runs
before the `q` check, so a non-integer `limit` raises an uncaught
`ValueError` (HTTP 500) even when `q` is absent — the claim's promised 400
is not produced. -/
theorem api_search_claim_counterexample :
    Api.api_search [] none (some "abc") = .serverError ∧
    Api.ApiResponse.serverError ≠
      Api.ApiResponse.badRequest "Query must be at least 2 characters" := by
  decide

/-- Claim C9 (amended): a present non-integer `limit` parameter yields an
uncaught `ValueError` (HTTP 500) before any `q` handling; otherwise a
missing or under-two-character `q` yields the 400, and a valid request
returns `{query, count, results}` where `count` is the number of returned
rows and, for wildcard-free queries, the results are the ASCII
case-insensitive substring matches over name OR registration number, ordered
by serial number descending, capped at `limit` (a negative SQLite limit
meaning no cap). -/
theorem api_search_characterization :
    (∀ (db : List Api.DbRow) (qp : Option String) (s : String),
      pythonInt s = none → Api.api_search db qp (some s) = .serverError) ∧
    (∀ (db : List Api.DbRow) (qp lp : Option String) (limit : Int),
      Api.limitFromParam lp = some limit →
      ((qp.getD "") = "" ∨ (qp.getD "").length < 2) →
      Api.api_search db qp lp =
        .badRequest "Query must be at least 2 characters") ∧
    (∀ (db : List Api.DbRow) (q : String) (lp : Option String) (limit : Int),
      Api.limitFromParam lp = some limit →
      ¬(q = "" ∨ q.length < 2) →
      Api.api_search db (some q) lp =
        .ok q (Api.db_search db q limit).length (Api.db_search db q limit)) ∧
    (∀ (db : List Api.DbRow) (q : String) (limit : Int),
      Api.noWildcards q = true → 0 ≤ limit →
      Api.db_search db q limit =
        ((Api.sortBySerialDesc db).filter (fun r =>
          hasSubCI r.name q || hasSubCI r.registration_number q)).take
            limit.toNat) ∧
    (∀ (db : List Api.DbRow) (q : String) (limit : Int),
      Api.noWildcards q = true → limit < 0 →
      Api.db_search db q limit =
        (Api.sortBySerialDesc db).filter (fun r =>
          hasSubCI r.name q || hasSubCI r.registration_number q)) := by
  have hfilter : ∀ (db : List Api.DbRow) (q : String),
      Api.noWildcards q = true →
      (Api.sortBySerialDesc db).filter (fun r =>
        Api.sqlite_like ("%" ++ q ++ "%") r.name ||
        Api.sqlite_like ("%" ++ q ++ "%") r.registration_number) =
      (Api.sortBySerialDesc db).filter (fun r =>
        hasSubCI r.name q || hasSubCI r.registration_number q) := by
    intro db q hw
    apply List.filter_congr
    intro r _
    rw [sqlite_like_wrap q r.name hw, sqlite_like_wrap q r.registration_number hw]
  refine ⟨?_, ?_, ?_, ?_, ?_⟩
  · intro db qp s hs
    unfold Api.api_search
    dsimp only
    rw [show Api.limitFromParam (some s) = pythonInt s from rfl, hs]
  · intro db qp lp limit hl hq
    unfold Api.api_search
    dsimp only
    rw [hl]
    dsimp only
    rw [if_pos (by
      simp only [Bool.or_eq_true, decide_eq_true_eq]
      exact hq)]
  · intro db q lp limit hl hq
    unfold Api.api_search
    dsimp only
    rw [hl]
    dsimp only
    rw [if_neg (by
      simp only [Bool.or_eq_true, decide_eq_true_eq]
      exact hq)]
    rfl
  · intro db q limit hw hpos
    unfold Api.db_search
    dsimp only
    rw [if_neg (by omega), hfilter db q hw]
  · intro db q limit hw hneg
    unfold Api.db_search
    dsimp only
    rw [if_pos hneg, hfilter db q hw]

/-- Claim C9 witness: the characterization applied to a three-row mirror —
`q = "al"`, `limit = 5` returns both Alice and Albert (count 2, descending
serial order), a non-integer limit yields the 500, a one-character query the
400. -/
theorem api_search_characterization_witness :
    Api.api_search
      [{ serial_number := 1, registration_number := "TS000001", name := "Alice",
         father_name := "F", category := "BPharm" },
       { serial_number := 2, registration_number := "TS000002", name := "Albert",
         father_name := "F", category := "BPharm" },
       { serial_number := 3, registration_number := "TS000003", name := "Bob",
         father_name := "F", category := "QP" }] (some "al") (some "5") =
      .ok "al" 2
        [{ serial_number := 2, registration_number := "TS000002",
           name := "Albert", father_name := "F", category := "BPharm" },
         { serial_number := 1, registration_number := "TS000001",
           name := "Alice", father_name := "F", category := "BPharm" }] ∧
    Api.api_search [] none (some "x") = .serverError ∧
    Api.api_search [] (some "a") (some "5") =
      .badRequest "Query must be at least 2 characters" := by
  refine ⟨?_, ?_, ?_⟩
  · have h3 := api_search_characterization.2.2.1
      [{ serial_number := 1, registration_number := "TS000001", name := "Alice",
         father_name := "F", category := "BPharm" },
       { serial_number := 2, registration_number := "TS000002", name := "Albert",
         father_name := "F", category := "BPharm" },
       { serial_number := 3, registration_number := "TS000003", name := "Bob",
         father_name := "F", category := "QP" }] "al" (some "5") 5
      (by decide) (by decide)
    have h4 := api_search_characterization.2.2.2.1
      [{ serial_number := 1, registration_number := "TS000001", name := "Alice",
         father_name := "F", category := "BPharm" },
       { serial_number := 2, registration_number := "TS000002", name := "Albert",
         father_name := "F", category := "BPharm" },
       { serial_number := 3, registration_number := "TS000003", name := "Bob",
         father_name := "F", category := "QP" }] "al" 5 (by decide) (by decide)
    rw [h3, h4]
    decide
  · exact api_search_characterization.1 [] none "x" (by decide)
  · exact api_search_characterization.2.1 [] (some "a") (some "5") 5
      (by decide) (by decide)

end TGPC




